import Mathlib

/-!
Verification model of `build_music_site.py` (Album du Jour static-site
generator). Pure functions of the script are embedded as Lean functions;
Python string primitives (`str.lower`, `str.strip`, `in`, `str.rsplit`,
`str.split`, `str.replace`, `str.startswith`, `str.endswith`) are modelled
over `List Char` for the ASCII data the sheet holds; `datetime.fromisoformat`
(CPython ≤ 3.10 strict parser) is modelled as a total function returning
`Option`. Fallible Python code (try/except returning None) becomes `Option`.
-/

namespace AlbumDuJour

/-! ## Python string primitives (ASCII model) -/

/-- Model of Python `str.lower` on one character (ASCII range: the uppercase
letters A-Z map down; the sheet's status values are ASCII). -/
def charLower (c : Char) : Char :=
  if 65 ≤ c.toNat ∧ c.toNat ≤ 90 then Char.ofNat (c.toNat + 32) else c

/-- Model of Python `str.lower`. -/
def strLower (s : String) : String := String.mk (s.data.map charLower)

/-- Python whitespace as stripped by `str.strip()` (ASCII set). -/
def isPySpace (c : Char) : Bool :=
  c = ' ' || c = '\t' || c = '\n' || c = '\x0d' || c = '\x0b' || c = '\x0c'

/-- Model of Python `str.strip()` with no argument. -/
def strStrip (s : String) : String :=
  String.mk (((s.data.dropWhile isPySpace).reverse.dropWhile isPySpace).reverse)

/-- Whether `pat` is a prefix of `s` (both as char lists). -/
def listStartsWith : List Char → List Char → Bool
  | _, [] => true
  | [], _ :: _ => false
  | a :: as, b :: bs => a = b && listStartsWith as bs

/-- Model of Python `str.startswith`. -/
def strStartsWith (s pat : String) : Bool := listStartsWith s.data pat.data

/-- Model of Python `str.endswith`. -/
def strEndsWith (s pat : String) : Bool :=
  listStartsWith s.data.reverse pat.data.reverse

/-- Model of Python `pat in s` (substring containment). -/
def listContainsSub : List Char → List Char → Bool
  | [], pat => pat.isEmpty
  | c :: rest, pat => listStartsWith (c :: rest) pat || listContainsSub rest pat

/-- Model of Python `pat in s` on strings. -/
def strContains (s pat : String) : Bool := listContainsSub s.data pat.data

/-- Split around the LAST occurrence of `pat` in `s` (Python `s.rsplit(pat, 1)`
when `pat` occurs): `some (before, after)`, or `none` when `pat` does not
occur. Recursing first prefers the rightmost occurrence. -/
def listSplitLast : List Char → List Char → Option (List Char × List Char)
  | [], pat => if pat.isEmpty then some ([], []) else none
  | c :: rest, pat =>
    match listSplitLast rest pat with
    | some (l, r) => some (c :: l, r)
    | none =>
      if listStartsWith (c :: rest) pat then some ([], (c :: rest).drop pat.length)
      else none

/-- Fuel-driven worker for `strReplace`: `fuel` bounds the scan (passing
`s.length` is always enough since every step consumes at least one char). -/
def listReplaceAux (pat rep : List Char) : Nat → List Char → List Char
  | _, [] => []
  | 0, s => s
  | fuel + 1, c :: rest =>
    if pat ≠ [] ∧ listStartsWith (c :: rest) pat = true then
      rep ++ listReplaceAux pat rep fuel ((c :: rest).drop pat.length)
    else c :: listReplaceAux pat rep fuel rest

/-- Model of Python `s.replace(pat, rep)`: every non-overlapping occurrence,
left to right. -/
def strReplace (s pat rep : String) : String :=
  String.mk (listReplaceAux pat.data rep.data s.data.length s.data)

/-- Fuel-driven worker for `strSplitOn` (Python `s.split(pat)` with a
non-empty separator). -/
def listSplitOnAux (pat : List Char) : Nat → List Char → List (List Char)
  | _, [] => [[]]
  | 0, s => [s]
  | fuel + 1, c :: rest =>
    if pat ≠ [] ∧ listStartsWith (c :: rest) pat = true then
      [] :: listSplitOnAux pat fuel ((c :: rest).drop pat.length)
    else
      match listSplitOnAux pat fuel rest with
      | [] => [[c]]
      | p :: ps => (c :: p) :: ps

/-- Model of Python `s.split(pat)` for a non-empty separator `pat`. -/
def strSplitOn (s pat : String) : List String :=
  (listSplitOnAux pat.data s.data.length s.data).map String.mk

/-! ## Timestamps: model of `datetime` values and `datetime.fromisoformat` -/

/-- A parsed timestamp: the seven naive fields plus, for an aware value, the
zone offset east of UTC in microseconds (`none` = naive). -/
structure DateTime where
  year : Nat
  month : Nat
  day : Nat
  hour : Nat
  minute : Nat
  second : Nat
  microsecond : Nat
  tzOffsetMicros : Option Int
deriving DecidableEq, Repr

/-- Leap-year rule of the proleptic Gregorian calendar (Python `calendar`). -/
def isLeapYear (y : Nat) : Bool := y % 4 = 0 && (y % 100 ≠ 0 || y % 400 = 0)

/-- Days in a month, as validated by Python's `datetime` constructor. -/
def daysInMonth (y m : Nat) : Nat :=
  if m = 2 then (if isLeapYear y then 29 else 28)
  else if m = 4 || m = 6 || m = 9 || m = 11 then 30
  else 31

/-- Days before January 1 of year `y` in the proleptic Gregorian calendar
(Python `datetime._days_before_year`). -/
def daysBeforeYear (y : Nat) : Nat :=
  365 * (y - 1) + (y - 1) / 4 - (y - 1) / 100 + (y - 1) / 400

/-- Days in year `y` strictly before month `m` (Python
`datetime._days_before_month`). -/
def daysBeforeMonth (y : Nat) (m : Nat) : Nat :=
  (if isLeapYear y = true ∧ 2 < m then 1 else 0) +
  (if m = 1 then 0 else if m = 2 then 31 else if m = 3 then 59
   else if m = 4 then 90 else if m = 5 then 120 else if m = 6 then 151
   else if m = 7 then 181 else if m = 8 then 212 else if m = 9 then 243
   else if m = 10 then 273 else if m = 11 then 304 else 334)

/-- Python `date.toordinal()`: the day's number in the proleptic Gregorian
calendar, day 1 being 0001-01-01. -/
def toOrdinal (y m d : Nat) : Nat := daysBeforeYear y + daysBeforeMonth y m + d

/-- The timestamp's naive fields as real microseconds from the calendar's
origin (the value `toordinal`-based Python datetime arithmetic assigns). -/
def DateTime.naiveEpochMicros (dt : DateTime) : Nat :=
  (toOrdinal dt.year dt.month dt.day * 86400
    + dt.hour * 3600 + dt.minute * 60 + dt.second) * 1000000 + dt.microsecond

/-- Comparison key of a timestamp: its naive instant in real microseconds,
shifted to UTC by the zone offset when one is present. Python compares two
aware datetimes as UTC instants — exactly `key` order — and two naive ones
field-lexicographically, which coincides with `key` order for values whose
fields are in calendar range (`DateTime.FieldsInRange` below; every Python
`datetime` object and every `fromisoformat` result is). Python raises
`TypeError` on a naive/aware comparison, aborting the sort, so the program's
sort order exists only for homogeneous buckets; on those this key is that
order. `pyLE` below models Python's comparison itself, `TypeError` included,
and the C2 theorem proves the agreement. -/
def DateTime.key (dt : DateTime) : Int :=
  (dt.naiveEpochMicros : Int) - dt.tzOffsetMicros.getD 0

/-- Python's field-lexicographic comparison of two naive datetimes
(`datetime._cmp` comparing the field tuples). -/
def fieldsLexLE (a b : DateTime) : Bool :=
  if a.year ≠ b.year then decide (a.year < b.year)
  else if a.month ≠ b.month then decide (a.month < b.month)
  else if a.day ≠ b.day then decide (a.day < b.day)
  else if a.hour ≠ b.hour then decide (a.hour < b.hour)
  else if a.minute ≠ b.minute then decide (a.minute < b.minute)
  else if a.second ≠ b.second then decide (a.second < b.second)
  else decide (a.microsecond ≤ b.microsecond)

/-- The field ranges Python's `datetime` constructor enforces (year is also
bounded above by 9999 there; the bound plays no role in comparisons and is
left out). -/
def DateTime.FieldsInRange (dt : DateTime) : Prop :=
  1 ≤ dt.year ∧ 1 ≤ dt.month ∧ dt.month ≤ 12 ∧ 1 ≤ dt.day ∧
    dt.day ≤ daysInMonth dt.year dt.month ∧ dt.hour ≤ 23 ∧ dt.minute ≤ 59 ∧
    dt.second ≤ 59 ∧ dt.microsecond ≤ 999999

/-- Python `datetime.__le__`: two aware values compare as UTC instants, two
naive values compare on their field tuples; a naive/aware mix raises
`TypeError`, modelled as `none`. -/
def pyLE (a b : DateTime) : Option Bool :=
  match a.tzOffsetMicros, b.tzOffsetMicros with
  | none, none => some (fieldsLexLE a b)
  | some oa, some ob =>
    some (decide ((a.naiveEpochMicros : Int) - oa ≤ (b.naiveEpochMicros : Int) - ob))
  | _, _ => none

/-- Decimal value of one ASCII digit. -/
def digitVal? (c : Char) : Option Nat :=
  if c.isDigit then some (c.toNat - 48) else none

/-- Exactly two ASCII digits. -/
def parse2Digits : List Char → Option (Nat × List Char)
  | a :: b :: rest => do
    let x ← digitVal? a
    let y ← digitVal? b
    pure (10 * x + y, rest)
  | _ => none

/-- Exactly four ASCII digits. -/
def parse4Digits : List Char → Option (Nat × List Char)
  | a :: b :: c :: d :: rest => do
    let x ← digitVal? a
    let y ← digitVal? b
    let z ← digitVal? c
    let w ← digitVal? d
    pure (1000 * x + 100 * y + 10 * z + w, rest)
  | _ => none

/-- One expected character. -/
def expectChar (c : Char) : List Char → Option (List Char)
  | x :: rest => if x = c then some rest else none
  | [] => none

/-- The maximal run of leading ASCII digits and the rest. -/
def takeDigitRun : List Char → List Nat × List Char
  | [] => ([], [])
  | c :: rest =>
    match digitVal? c with
    | some d => let (ds, r) := takeDigitRun rest; (d :: ds, r)
    | none => ([], c :: rest)

/-- Digits to their decimal value. -/
def digitsToNat (ds : List Nat) : Nat := ds.foldl (fun a d => a * 10 + d) 0

/-- The `HH[:MM[:SS[.fff[fff]]]]` core of CPython ≤ 3.10's ISO time parser
(`parse_hh_mm_ss_ff`): fraction of exactly 3 or 6 digits, microseconds out. -/
def parseHMSF (cs : List Char) : Option (Nat × Nat × Nat × Nat × List Char) := do
  let (h, cs1) ← parse2Digits cs
  match cs1 with
  | ':' :: cs2 => do
    let (m, cs3) ← parse2Digits cs2
    match cs3 with
    | ':' :: cs4 => do
      let (s, cs5) ← parse2Digits cs4
      match cs5 with
      | '.' :: cs6 =>
        let (ds, cs7) := takeDigitRun cs6
        if ds.length = 3 then pure (h, m, s, digitsToNat ds * 1000, cs7)
        else if ds.length = 6 then pure (h, m, s, digitsToNat ds, cs7)
        else none
      | _ => pure (h, m, s, 0, cs5)
    | _ => pure (h, m, 0, 0, cs3)
  | _ => pure (h, 0, 0, 0, cs1)

/-- Time-of-day plus optional `±HH:MM[:SS[.ffffff]]` zone suffix, consuming
the whole input, with the checks CPython ≤ 3.10 applies: the zone suffix,
sign included, must be exactly 6, 9 or 16 characters long
(`parse_isoformat_time`'s tzlen test), and the `time`/`timezone`
constructors enforce the hour/minute/second ranges and |offset| < 24h. -/
def parseTimeAndTz (cs : List Char) : Option (Nat × Nat × Nat × Nat × Option Int) := do
  let (h, m, s, us, rest) ← parseHMSF cs
  if 23 < h || 59 < m || 59 < s then none
  else
    match rest with
    | [] => pure (h, m, s, us, none)
    | c :: tzrest => do
      let sign : Int ← if c = '+' then pure 1 else if c = '-' then pure (-1) else none
      if tzrest.length = 5 ∨ tzrest.length = 8 ∨ tzrest.length = 15 then
        let (th, tm, ts, tus, rest2) ← parseHMSF tzrest
        if rest2 ≠ [] then none
        else
          let off : Int := sign * (((th * 3600 + tm * 60 + ts) * 1000000 + tus : Nat) : Int)
          if off ≤ -86400000000 || 86400000000 ≤ off then none
          else pure (h, m, s, us, some off)
      else none

/-- Model of CPython ≤ 3.10 `datetime.fromisoformat`: strict `YYYY-MM-DD`,
then optionally one arbitrary separator character and a non-empty time part,
validated as the `datetime` constructor does. Returns `none` where Python
raises (`parse_timestamp` catches every such error). -/
def fromisoformat (s : String) : Option DateTime := do
  let (y, m, d, rest) ← match parse4Digits s.data with
    | none => none
    | some (y, cs) => do
      let cs ← expectChar '-' cs
      let (mo, cs) ← parse2Digits cs
      let cs ← expectChar '-' cs
      let (dy, cs) ← parse2Digits cs
      pure (y, mo, dy, cs)
  if y < 1 || m < 1 || 12 < m || d < 1 || daysInMonth y m < d then none
  else
    match rest with
    | [] => pure ⟨y, m, d, 0, 0, 0, 0, none⟩
    | _sep :: timeChars =>
      if timeChars.isEmpty then none
      else do
        let (h, mi, sec, us, tz) ← parseTimeAndTz timeChars
        pure ⟨y, m, d, h, mi, sec, us, tz⟩

/-- `MusicSiteBuilder.parse_timestamp`: placeholder values (empty, containing
"XX", whitespace-only) are absent; a trailing 'Z' is rewritten to "+00:00"
(Python `str.replace` rewrites every 'Z'); any parse failure is `none`. -/
def parse_timestamp (timestamp_str : String) : Option DateTime :=
  if timestamp_str = "" ∨ strContains timestamp_str "XX" = true
      ∨ strStrip timestamp_str = "" then none
  else if strEndsWith timestamp_str "Z" then
    fromisoformat (strReplace timestamp_str "Z" "+00:00")
  else
    fromisoformat timestamp_str

/-! ## `parse_album_artist` and the embed URLs -/

/-- `MusicSiteBuilder.parse_album_artist`: split `"Album - Artist"` on the
last en-dash-padded separator, else the last hyphen-padded one, else the
whole (stripped) entry with the sentinel artist. The `none` fallbacks are
unreachable (guarded by `strContains`). -/
def parse_album_artist (music_entry : String) : String × String :=
  if strContains music_entry " – " then
    match listSplitLast music_entry.data " – ".data with
    | some (l, r) => (strStrip (String.mk l), strStrip (String.mk r))
    | none => (strStrip music_entry, "Unknown Artist")
  else if strContains music_entry " - " then
    match listSplitLast music_entry.data " - ".data with
    | some (l, r) => (strStrip (String.mk l), strStrip (String.mk r))
    | none => (strStrip music_entry, "Unknown Artist")
  else (strStrip music_entry, "Unknown Artist")

/-- `MusicSiteBuilder.get_apple_embed_url`. -/
def get_apple_embed_url (apple_link : String) : Option String :=
  if apple_link = "" ∨ strStartsWith apple_link "https://music.apple.com" = false then
    none
  else some (strReplace apple_link "music.apple.com" "embed.music.apple.com")

/-- `MusicSiteBuilder.get_spotify_embed_url`: the 4th and 5th slash-delimited
segments become the embed path, the id's query string stripped; anything
malformed is `none` (the Python try/except swallows every error). -/
def get_spotify_embed_url (spotify_link : String) : Option String :=
  if spotify_link = "" ∨ strStartsWith spotify_link "https://open.spotify.com" = false then
    none
  else
    let parts := strSplitOn spotify_link "/"
    if 5 ≤ parts.length then
      let content_type := parts.getD 3 ""
      let content_id := (strSplitOn (parts.getD 4 "") "?").headD ""
      some ("https://open.spotify.com/embed/" ++ content_type ++ "/" ++ content_id
        ++ "?utm_source=generator")
    else none

/-! ## Rows, entries and `fetch_music_data` -/

/-- One spreadsheet row as `sheet.get_all_records()` hands it over: the cell
text of the columns the script reads (a missing column defaults to the empty
string, the Status column to "Open", upstream of this model). -/
structure Row where
  music : String
  apple_link : String
  spotify_link : String
  status : String
  date_added : String
  date_finished : String
  rating : String
deriving DecidableEq, Repr

/-- One normalized music entry (the dict built in `fetch_music_data`). -/
structure Entry where
  id : Nat
  album : String
  artist : String
  apple_link : String
  spotify_link : String
  status : String
  date_added : Option DateTime
  date_finished : Option DateTime
  date_added_raw : String
  date_finished_raw : String
  rating : String
  apple_embed : Option String
  spotify_embed : Option String
deriving DecidableEq, Repr

/-- The loop body of `MusicSiteBuilder.fetch_music_data` for row number `i`
(0-based): `none` exactly where the Python `continue`s the row away. -/
def normalize_row (i : Nat) (record : Row) : Option Entry :=
  let apple_link := strStrip record.apple_link
  let spotify_link := strStrip record.spotify_link
  if apple_link = "" ∧ spotify_link = "" then none
  else
    let music_entry := strStrip record.music
    if music_entry = "" then none
    else
      let (album, artist) := parse_album_artist music_entry
      let date_added := parse_timestamp (strStrip record.date_added)
      let date_finished := parse_timestamp (strStrip record.date_finished)
      some
        { id := i + 1
          album := album
          artist := artist
          apple_link := apple_link
          spotify_link := spotify_link
          status := strStrip record.status
          date_added := date_added
          date_finished := date_finished
          date_added_raw := strStrip record.date_added
          date_finished_raw := strStrip record.date_finished
          rating := strStrip record.rating
          apple_embed := get_apple_embed_url apple_link
          spotify_embed := get_spotify_embed_url spotify_link }

/-- `MusicSiteBuilder.fetch_music_data` over already-fetched rows. -/
def fetch_music_data (records : List Row) : List Entry :=
  records.enum.filterMap fun p => normalize_row p.1 p.2

/-! ## `categorize_albums` -/

/-- The loop of `categorize_albums`, in loop order: (current_listening,
recently_finished, recently_added) before sorting and truncation. -/
def classify : List Entry → List Entry × List Entry × List Entry
  | [] => ([], [], [])
  | e :: rest =>
    let (cur, fin, add) := classify rest
    if strLower e.status = "current" then (e :: cur, fin, add)
    else if e.date_finished.isSome then (cur, e :: fin, add)
    else if e.date_added.isSome then (cur, fin, e :: add)
    else (cur, fin, add)

/-- Sort key for the Recently Added bucket (`x['date_added']`; every member
of that bucket has the timestamp present, see the bucket invariants). -/
def addedKey (e : Entry) : Int := (e.date_added.map DateTime.key).getD 0

/-- Sort key for the Recently Finished bucket (`x['date_finished']`). -/
def finishedKey (e : Entry) : Int := (e.date_finished.map DateTime.key).getD 0

/-- Stable insertion for a descending sort: the new element goes before the
first element whose key is not greater, so elements already in the list that
compare equal keep their earlier position ahead of nothing — and since
`sortDesc` inserts earlier input elements later, equal keys keep input order
(Python `list.sort(key=..., reverse=True)` is exactly the stable descending
sort, which is unique, so any stable implementation is extensionally equal). -/
def insertDesc {α : Type} (key : α → Int) (a : α) : List α → List α
  | [] => [a]
  | b :: bs => if key b ≤ key a then a :: b :: bs else b :: insertDesc key a bs

/-- Stable descending sort by `key` (model of Python's stable
`sort(key=..., reverse=True)`). -/
def sortDesc {α : Type} (key : α → Int) (l : List α) : List α :=
  l.foldr (insertDesc key) []

/-- The categorized buckets returned by `categorize_albums`. -/
structure Categorized where
  current_listening : List Entry
  recently_added : List Entry
  recently_finished : List Entry
deriving DecidableEq, Repr

/-- `MusicSiteBuilder.categorize_albums`: classify, sort the two derived
buckets newest-first, then truncate each of them to 20. -/
def categorize_albums (music_data : List Entry) : Categorized :=
  let (current_listening, recently_finished, recently_added) := classify music_data
  { current_listening := current_listening
    recently_added := (sortDesc addedKey recently_added).take 20
    recently_finished := (sortDesc finishedKey recently_finished).take 20 }

/-! ## Classification predicates and structural lemmas -/

/-- The classifier's first branch as a Boolean predicate. -/
def goesCurrent (e : Entry) : Bool := decide (strLower e.status = "current")

/-- The classifier's second branch (not current, finished present). -/
def goesFinished (e : Entry) : Bool := !goesCurrent e && e.date_finished.isSome

/-- The classifier's third branch (not current, no finished, added present). -/
def goesAdded (e : Entry) : Bool :=
  !goesCurrent e && !e.date_finished.isSome && e.date_added.isSome

/-- The classification loop is the three branch filters, in input order. -/
theorem classify_eq (l : List Entry) :
    classify l = (l.filter goesCurrent, l.filter goesFinished, l.filter goesAdded) := by
  induction l with
  | nil => rfl
  | cons e rest ih =>
    simp only [classify, ih]
    by_cases hc : strLower e.status = "current"
    · simp [goesCurrent, goesFinished, goesAdded, hc, List.filter_cons]
    · by_cases hf : e.date_finished.isSome
      · simp [goesCurrent, goesFinished, goesAdded, hc, hf, List.filter_cons]
      · by_cases ha : e.date_added.isSome
        · simp [goesCurrent, goesFinished, goesAdded, hc, hf, ha, List.filter_cons]
        · simp [goesCurrent, goesFinished, goesAdded, hc, hf, ha, List.filter_cons]

/-- `categorize_albums` in terms of the branch filters. -/
theorem categorize_eq (l : List Entry) :
    categorize_albums l =
      { current_listening := l.filter goesCurrent
        recently_added := (sortDesc addedKey (l.filter goesAdded)).take 20
        recently_finished := (sortDesc finishedKey (l.filter goesFinished)).take 20 } := by
  simp [categorize_albums, classify_eq]

/-- Membership through `insertDesc`. -/
theorem mem_insertDesc {α : Type} (key : α → Int) (a x : α) (l : List α) :
    x ∈ insertDesc key a l ↔ x = a ∨ x ∈ l := by
  induction l with
  | nil => simp [insertDesc]
  | cons b bs ih =>
    simp only [insertDesc]
    split
    · simp [List.mem_cons]
    · simp only [List.mem_cons, ih]
      tauto

/-- `insertDesc` keeps the list sorted by non-increasing key. -/
theorem pairwise_insertDesc {α : Type} (key : α → Int) (a : α) (l : List α)
    (h : l.Pairwise (fun x y => key y ≤ key x)) :
    (insertDesc key a l).Pairwise (fun x y => key y ≤ key x) := by
  induction l with
  | nil => simp [insertDesc]
  | cons b bs ih =>
    rw [List.pairwise_cons] at h
    obtain ⟨hb, hbs⟩ := h
    simp only [insertDesc]
    split
    · rename_i hba
      refine List.pairwise_cons.2 ⟨?_, List.pairwise_cons.2 ⟨hb, hbs⟩⟩
      intro y hy
      rcases List.mem_cons.1 hy with h1 | h2
      · subst h1; exact hba
      · exact le_trans (hb y h2) hba
    · rename_i hba
      push_neg at hba
      refine List.pairwise_cons.2 ⟨?_, ih hbs⟩
      intro y hy
      rcases (mem_insertDesc key a y bs).1 hy with h1 | h2
      · subst h1; exact le_of_lt hba
      · exact hb y h2

/-- The stable descending sort is sorted by non-increasing key. -/
theorem pairwise_sortDesc {α : Type} (key : α → Int) (l : List α) :
    (sortDesc key l).Pairwise (fun x y => key y ≤ key x) := by
  induction l with
  | nil => simp [sortDesc]
  | cons a l ih => exact pairwise_insertDesc key a _ ih

/-- Membership through the stable descending sort. -/
theorem mem_sortDesc {α : Type} (key : α → Int) (x : α) (l : List α) :
    x ∈ sortDesc key l ↔ x ∈ l := by
  induction l with
  | nil => simp [sortDesc]
  | cons a l ih =>
    simp only [sortDesc, List.foldr_cons] at ih ⊢
    rw [mem_insertDesc, ih, List.mem_cons]

/-- Stability of `insertDesc`, phrased per key value: restricted to any one
key, inserting keeps the new element first and the rest in order. -/
theorem filter_insertDesc {α : Type} (key : α → Int) (k : Int) (a : α) (l : List α) :
    (insertDesc key a l).filter (fun x => decide (key x = k))
      = ((a :: l).filter (fun x => decide (key x = k))) := by
  induction l with
  | nil => rfl
  | cons b bs ih =>
    simp only [insertDesc]
    split
    · rfl
    · rename_i hba
      push_neg at hba
      by_cases hak : key a = k
      · have hbk : ¬ key b = k := by omega
        simp [List.filter_cons, hak, hbk, ih]
      · simp [List.filter_cons, hak, ih]

/-- Stability of the stable descending sort: restricted to any one key value
the sorted list is the input list. -/
theorem filter_sortDesc {α : Type} (key : α → Int) (k : Int) (l : List α) :
    (sortDesc key l).filter (fun x => decide (key x = k))
      = l.filter (fun x => decide (key x = k)) := by
  induction l with
  | nil => rfl
  | cons a l ih =>
    simp only [sortDesc, List.foldr_cons] at ih ⊢
    rw [filter_insertDesc, List.filter_cons, List.filter_cons, ih]

/-- Anything in the Recently Added bucket passed the added branch. -/
theorem mem_added_bucket {l : List Entry} {e : Entry}
    (h : e ∈ (categorize_albums l).recently_added) : goesAdded e = true := by
  rw [categorize_eq] at h
  have h2 := List.take_subset 20 _ h
  rw [mem_sortDesc] at h2
  exact (List.mem_filter.1 h2).2

/-- Anything in the Recently Finished bucket passed the finished branch. -/
theorem mem_finished_bucket {l : List Entry} {e : Entry}
    (h : e ∈ (categorize_albums l).recently_finished) : goesFinished e = true := by
  rw [categorize_eq] at h
  have h2 := List.take_subset 20 _ h
  rw [mem_sortDesc] at h2
  exact (List.mem_filter.1 h2).2

/-- Anything in the Currently Listening bucket passed the current branch. -/
theorem mem_current_bucket {l : List Entry} {e : Entry}
    (h : e ∈ (categorize_albums l).current_listening) : goesCurrent e = true := by
  rw [categorize_eq] at h
  exact (List.mem_filter.1 h).2

/-! ## Lemmas about the split primitives -/

/-- `listStartsWith` means a literal prefix. -/
theorem listStartsWith_iff (s pat : List Char) :
    listStartsWith s pat = true ↔ ∃ t, s = pat ++ t := by
  induction pat generalizing s with
  | nil => simp [listStartsWith]
  | cons b bs ih =>
    cases s with
    | nil => simp [listStartsWith]
    | cons a as =>
      simp only [listStartsWith, Bool.and_eq_true, decide_eq_true_eq, ih, List.cons_append]
      constructor
      · rintro ⟨rfl, t, rfl⟩; exact ⟨t, rfl⟩
      · rintro ⟨t, h⟩
        cases h
        exact ⟨rfl, t, rfl⟩

/-- When `listSplitLast` finds nothing, the pattern does not occur. -/
theorem listSplitLast_none (pat : List Char) (hp : pat ≠ []) :
    ∀ s, listSplitLast s pat = none → listContainsSub s pat = false := by
  intro s
  induction s with
  | nil =>
    intro _
    simp [listContainsSub, List.isEmpty_iff, hp]
  | cons c rest ih =>
    intro h
    simp only [listSplitLast] at h
    cases hr : listSplitLast rest pat with
    | some p => rw [hr] at h; obtain ⟨l, r⟩ := p; simp at h
    | none =>
      rw [hr] at h
      by_cases hs : listStartsWith (c :: rest) pat = true
      · rw [if_pos hs] at h; simp at h
      · simp only [listContainsSub, Bool.or_eq_false_iff]
        exact ⟨Bool.eq_false_iff.2 hs, ih hr⟩

/-- Containment is preserved by prepending. -/
theorem listContainsSub_append_left (x t pat : List Char)
    (h : listContainsSub t pat = true) : listContainsSub (x ++ t) pat = true := by
  induction x with
  | nil => simpa using h
  | cons c cs ih => simp [listContainsSub, ih]

/-- Soundness of `listSplitLast`: it splits around an occurrence of the
pattern, and the pattern occurs nowhere to the right of that occurrence —
that is, it splits on the LAST occurrence (Python `rsplit(pat, 1)`). -/
theorem listSplitLast_sound (pat : List Char) (hp : pat ≠ []) :
    ∀ s l r, listSplitLast s pat = some (l, r) →
      s = l ++ pat ++ r ∧ listContainsSub r pat = false := by
  intro s
  induction s with
  | nil =>
    intro l r h
    simp [listSplitLast, List.isEmpty_iff, hp] at h
  | cons c rest ih =>
    intro l r h
    simp only [listSplitLast] at h
    cases hr : listSplitLast rest pat with
    | some p =>
      obtain ⟨l', r'⟩ := p
      rw [hr] at h
      simp only [Option.some.injEq, Prod.mk.injEq] at h
      obtain ⟨hl, hrr⟩ := h
      obtain ⟨e1, e2⟩ := ih l' r' hr
      subst hl hrr
      constructor
      · rw [e1]; rfl
      · exact e2
    | none =>
      rw [hr] at h
      by_cases hs : listStartsWith (c :: rest) pat = true
      · rw [if_pos hs] at h
        simp only [Option.some.injEq, Prod.mk.injEq] at h
        obtain ⟨hl, hrr⟩ := h
        obtain ⟨t, ht⟩ := (listStartsWith_iff _ pat).1 hs
        have hdrop : (c :: rest).drop pat.length = t := by
          rw [ht]; exact List.drop_left pat t
        subst hl
        rw [← hrr, hdrop]
        refine ⟨ht, ?_⟩
        cases pat with
        | nil => exact absurd rfl hp
        | cons p0 pt =>
          have hrest : rest = pt ++ t := by
            rw [List.cons_append] at ht
            exact (List.cons.injEq .. ▸ ht :
              c = p0 ∧ rest = pt ++ t).2
          by_contra hct
          have hct' : listContainsSub t (p0 :: pt) = true :=
            Bool.not_eq_false _ ▸ hct
          have : listContainsSub rest (p0 :: pt) = true := by
            rw [hrest]; exact listContainsSub_append_left pt t _ hct'
          rw [listSplitLast_none (p0 :: pt) hp rest hr] at this
          exact Bool.false_ne_true this
      · rw [if_neg hs] at h
        simp at h

/-! ## Claim theorems -/

/-- C1: classification applies the fixed priority order: lowercased status
"current" puts the record in bucket A (`current_listening`, the triple's
first component) regardless of timestamps; otherwise a present completed
timestamp puts it in bucket C (`recently_finished`, second component) even
when an added timestamp is also present; otherwise a present added timestamp
puts it in bucket B (`recently_added`, third component); otherwise it is in
no bucket at all. -/
theorem classify_priority_spec :
    ∀ l : List Entry, ∀ e : Entry,
      (e ∈ (classify l).1 ↔ e ∈ l ∧ strLower e.status = "current") ∧
      (e ∈ (classify l).2.1 ↔
        e ∈ l ∧ strLower e.status ≠ "current" ∧ e.date_finished.isSome = true) ∧
      (e ∈ (classify l).2.2 ↔
        e ∈ l ∧ strLower e.status ≠ "current" ∧ e.date_finished.isSome = false ∧
          e.date_added.isSome = true) ∧
      (strLower e.status ≠ "current" → e.date_finished.isSome = false →
          e.date_added.isSome = false →
        e ∉ (classify l).1 ∧ e ∉ (classify l).2.1 ∧ e ∉ (classify l).2.2) := by
  intro l e
  rw [classify_eq]
  simp only [List.mem_filter, goesCurrent, goesFinished, goesAdded, Bool.and_eq_true,
    Bool.not_eq_true', decide_eq_false_iff_not, decide_eq_true_eq]
  refine ⟨trivial, trivial, ?_, ?_⟩
  · constructor
    · rintro ⟨h1, ⟨h2, h3⟩, h4⟩
      exact ⟨h1, h2, h3, h4⟩
    · rintro ⟨h1, h2, h3, h4⟩
      exact ⟨h1, ⟨h2, h3⟩, h4⟩
  · intro h1 h2 h3
    refine ⟨fun hm => h1 hm.2, fun hm => ?_, fun hm => ?_⟩
    · rw [hm.2.2] at h2; exact Bool.noConfusion h2
    · rw [hm.2.2] at h3; exact Bool.noConfusion h3

/-- C3: the normalizer skips a row (producing no Entry) exactly when both
link fields are empty after trimming, or the combined title field is empty
after trimming; every other row yields exactly one Entry. -/
theorem normalize_row_skips_iff :
    ∀ i : Nat, ∀ r : Row,
      (normalize_row i r = none ↔
        (strStrip r.apple_link = "" ∧ strStrip r.spotify_link = "") ∨
          strStrip r.music = "") ∧
      (¬((strStrip r.apple_link = "" ∧ strStrip r.spotify_link = "") ∨
          strStrip r.music = "") →
        ∃ e : Entry, normalize_row i r = some e) := by
  intro i r
  have hiff : normalize_row i r = none ↔
      (strStrip r.apple_link = "" ∧ strStrip r.spotify_link = "") ∨
        strStrip r.music = "" := by
    by_cases hA : strStrip r.apple_link = "" ∧ strStrip r.spotify_link = ""
    · simp [normalize_row, hA]
    · by_cases hM : strStrip r.music = ""
      · simp [normalize_row, hA, hM]
      · simp [normalize_row, hA, hM]
  refine ⟨hiff, fun h => ?_⟩
  exact Option.ne_none_iff_exists'.1 (fun hn => h (hiff.1 hn))

/-- C4 counterexample: on an input with no separator the function returns the
sentinel creator "Unknown Artist", not the claimed "Unknown". -/
theorem parse_album_artist_sentinel_cex :
    parse_album_artist "Solo Title" = ("Solo Title", "Unknown Artist") ∧
      parse_album_artist "Solo Title" ≠ ("Solo Title", "Unknown") := by
  constructor
  · decide
  · decide

/-- C4 (amended: the no-separator sentinel creator is "Unknown Artist", not
"Unknown"): the split looks for the en-dash-padded separator " – " first and
only if absent for the hyphen-padded " - "; in either case it splits on the
LAST occurrence (the pattern occurs nowhere in the returned right part),
returning the trimmed left and right parts; with neither separator it
returns the whole trimmed string together with the sentinel creator. -/
theorem parse_album_artist_spec :
    (∀ s : String, strContains s " – " = true →
      ∃ l r : List Char, s.data = l ++ " – ".data ++ r ∧
        listContainsSub r " – ".data = false ∧
        parse_album_artist s = (strStrip (String.mk l), strStrip (String.mk r))) ∧
    (∀ s : String, strContains s " – " = false → strContains s " - " = true →
      ∃ l r : List Char, s.data = l ++ " - ".data ++ r ∧
        listContainsSub r " - ".data = false ∧
        parse_album_artist s = (strStrip (String.mk l), strStrip (String.mk r))) ∧
    (∀ s : String, strContains s " – " = false → strContains s " - " = false →
      parse_album_artist s = (strStrip s, "Unknown Artist")) ∧
    parse_album_artist "Foo – Bar" = ("Foo", "Bar") ∧
    parse_album_artist "Foo - Bar - Baz" = ("Foo - Bar", "Baz") ∧
    parse_album_artist "A - B – C" = ("A - B", "C") := by
  refine ⟨?_, ?_, ?_, by decide, by decide, by decide⟩
  · intro s hs
    cases hsplit : listSplitLast s.data " – ".data with
    | none =>
      have := listSplitLast_none " – ".data (by decide) s.data hsplit
      rw [strContains] at hs
      rw [hs] at this
      exact absurd this (by decide)
    | some p =>
      obtain ⟨l, r⟩ := p
      obtain ⟨h1, h2⟩ := listSplitLast_sound " – ".data (by decide) s.data l r hsplit
      exact ⟨l, r, h1, h2, by simp [parse_album_artist, hs, hsplit]⟩
  · intro s hs1 hs2
    cases hsplit : listSplitLast s.data " - ".data with
    | none =>
      have := listSplitLast_none " - ".data (by decide) s.data hsplit
      rw [strContains] at hs2
      rw [hs2] at this
      exact absurd this (by decide)
    | some p =>
      obtain ⟨l, r⟩ := p
      obtain ⟨h1, h2⟩ := listSplitLast_sound " - ".data (by decide) s.data l r hsplit
      exact ⟨l, r, h1, h2, by simp [parse_album_artist, hs1, hs2, hsplit]⟩
  · intro s hs1 hs2
    simp [parse_album_artist, hs1, hs2]

/-- C5: the timestamp parser is total (it returns an `Option`, never
raising): empty input or input containing the placeholder marker "XX" is
absent; the concreteable "2024-03-01T00:00:00Z" parses to 2024-03-01 UTC
midnight (zone offset 0); an unparsable string is absent. -/
theorem parse_timestamp_spec :
    (∀ s : String, s = "" ∨ strContains s "XX" = true → parse_timestamp s = none) ∧
    parse_timestamp "2024-03-01T00:00:00Z" =
      some { year := 2024, month := 3, day := 1, hour := 0, minute := 0,
             second := 0, microsecond := 0, tzOffsetMicros := some 0 } ∧
    parse_timestamp "not-a-date" = none := by
  refine ⟨?_, by decide, by decide⟩
  intro s h
  rcases h with h | h
  · simp [parse_timestamp, h]
  · simp [parse_timestamp, h]

/-- C6: Apple embeds are absent unless the link starts with the fixed origin,
in which case the embed subdomain is substituted; Spotify embeds are absent
unless the link starts with its fixed origin, in which case the 4th and 5th
slash-delimited segments (content type, content id with query stripped) fill
the fixed embed-path template with the tracking parameter appended; malformed
links (too few segments) yield an absent embed, with no error possible
(the functions are total). -/
theorem embed_url_spec :
    (∀ link : String, strStartsWith link "https://music.apple.com" = false →
      get_apple_embed_url link = none) ∧
    (∀ link : String, strStartsWith link "https://music.apple.com" = true →
      get_apple_embed_url link =
        some (strReplace link "music.apple.com" "embed.music.apple.com")) ∧
    (∀ link : String, strStartsWith link "https://open.spotify.com" = false →
      get_spotify_embed_url link = none) ∧
    (∀ link : String, (strSplitOn link "/").length < 5 →
      get_spotify_embed_url link = none) ∧
    get_spotify_embed_url "https://open.spotify.com/album/ID123?foo=bar" =
      some "https://open.spotify.com/embed/album/ID123?utm_source=generator" ∧
    get_apple_embed_url "http://music.apple.com/us/album/x" = none ∧
    get_apple_embed_url "https://music.apple.com/us/album/x/123" =
      some "https://embed.music.apple.com/us/album/x/123" ∧
    get_spotify_embed_url "https://open.spotify.com" = none := by
  refine ⟨?_, ?_, ?_, ?_, by decide, by decide, by decide, by decide⟩
  · intro link h
    simp [get_apple_embed_url, h]
  · intro link h
    have hne : ¬ link = "" := by
      rintro rfl
      exact absurd h (by decide)
    simp [get_apple_embed_url, hne, h]
  · intro link h
    simp [get_spotify_embed_url, h]
  · intro link h
    by_cases h0 : link = "" ∨ strStartsWith link "https://open.spotify.com" = false
    · simp [get_spotify_embed_url, h0]
    · simp only [get_spotify_embed_url, if_neg h0]
      rw [if_neg (by omega)]

/-- Row used by the C7 fixtures: status "Active" with an added timestamp. -/
def activeRow : Row :=
  { music := "X – Y", apple_link := "", spotify_link := "https://open.spotify.com/album/ZZ",
    status := "Active", date_added := "2024-01-02T00:00:00Z", date_finished := "",
    rating := "" }

/-- C7 counterexample: a record whose status is "Active" (lowercased
"active") is NOT placed in bucket A — the classifier only tests for
"current"; the fixture record instead lands in Recently Added. -/
theorem active_row_not_in_bucket_A :
    (fetch_music_data [activeRow]).map (fun e => strLower e.status) = ["active"] ∧
    (categorize_albums (fetch_music_data [activeRow])).current_listening = [] ∧
    ((categorize_albums (fetch_music_data [activeRow])).recently_added).map
      (fun e => e.status) = ["Active"] := by
  refine ⟨by decide, by decide, by decide⟩

/-- Entry used by the C7 witness. -/
def activeEntry : Entry :=
  { id := 1, album := "X", artist := "Y", apple_link := "",
    spotify_link := "https://open.spotify.com/album/ZZ", status := "Active",
    date_added := some ⟨2024, 1, 2, 0, 0, 0, 0, some 0⟩, date_finished := none,
    date_added_raw := "2024-01-02T00:00:00Z", date_finished_raw := "", rating := "",
    apple_embed := none,
    spotify_embed := some "https://open.spotify.com/embed/album/ZZ?utm_source=generator" }

/-- C7 (amended: status "active" does NOT select bucket A; only lowercased
status "current" does, and an "Active" record is classified by its
timestamps like any other non-current record): no record whose lowercased
status is "active" ever appears in `current_listening`. -/
theorem active_status_never_bucket_A :
    ∀ l : List Entry, ∀ e : Entry, strLower e.status = "active" →
      e ∉ (categorize_albums l).current_listening := by
  intro l e h hmem
  have hc := mem_current_bucket hmem
  simp only [goesCurrent, h] at hc
  exact absurd (of_decide_eq_true hc) (by decide)

/-- C7 witness: the amended statement applied to the concrete fixture. -/
theorem active_status_never_bucket_A_witness :
    activeEntry ∉ (categorize_albums [activeEntry]).current_listening :=
  active_status_never_bucket_A [activeEntry] activeEntry (by decide)

/-- C10: the three buckets are pairwise disjoint, every Recently Finished
member has a present completed timestamp and every Recently Added member has
a present added timestamp — so the two descending sorts only ever compare
present timestamps and are well-defined total operations. -/
theorem bucket_invariants :
    ∀ l : List Entry, ∀ e : Entry,
      (e ∈ (categorize_albums l).recently_finished → e.date_finished.isSome = true) ∧
      (e ∈ (categorize_albums l).recently_added → e.date_added.isSome = true) ∧
      ¬(e ∈ (categorize_albums l).current_listening ∧
        e ∈ (categorize_albums l).recently_finished) ∧
      ¬(e ∈ (categorize_albums l).current_listening ∧
        e ∈ (categorize_albums l).recently_added) ∧
      ¬(e ∈ (categorize_albums l).recently_finished ∧
        e ∈ (categorize_albums l).recently_added) := by
  intro l e
  refine ⟨?_, ?_, ?_, ?_, ?_⟩
  · intro h
    have := mem_finished_bucket h
    simp only [goesFinished, Bool.and_eq_true] at this
    exact this.2
  · intro h
    have := mem_added_bucket h
    simp only [goesAdded, Bool.and_eq_true] at this
    exact this.2
  · rintro ⟨h1, h2⟩
    have hc := mem_current_bucket h1
    have hf := mem_finished_bucket h2
    simp only [goesFinished, Bool.and_eq_true, Bool.not_eq_true'] at hf
    rw [hc] at hf
    exact Bool.noConfusion hf.1
  · rintro ⟨h1, h2⟩
    have hc := mem_current_bucket h1
    have ha := mem_added_bucket h2
    simp only [goesAdded, Bool.and_eq_true, Bool.not_eq_true'] at ha
    rw [hc] at ha
    exact Bool.noConfusion ha.1.1
  · rintro ⟨h1, h2⟩
    have hf := mem_finished_bucket h1
    have ha := mem_added_bucket h2
    simp only [goesFinished, Bool.and_eq_true] at hf
    simp only [goesAdded, Bool.and_eq_true, Bool.not_eq_true'] at ha
    rw [hf.2] at ha
    exact Bool.noConfusion ha.1.2

/-! ## Calendar lemmas: the real-time key realizes Python's datetime order -/

set_option maxHeartbeats 1000000

/-- No month is longer than 31 days. -/
theorem daysInMonth_le (y m : Nat) : daysInMonth y m ≤ 31 := by
  unfold daysInMonth
  split_ifs <;> omega

/-- `isLeapYear` unfolded to its arithmetic conditions. -/
theorem isLeapYear_iff (y : Nat) :
    isLeapYear y = true ↔ (y % 4 = 0 ∧ (¬ y % 100 = 0 ∨ y % 400 = 0)) := by
  unfold isLeapYear
  simp [Bool.and_eq_true, Bool.or_eq_true, decide_eq_true_eq]

/-- One year adds 365 days plus the leap day. -/
theorem daysBeforeYear_succ (y : Nat) (hy : 1 ≤ y) :
    daysBeforeYear (y + 1)
      = daysBeforeYear y + 365 + (if isLeapYear y = true then 1 else 0) := by
  cases hl : isLeapYear y
  · have hl' : ¬(y % 4 = 0 ∧ (¬ y % 100 = 0 ∨ y % 400 = 0)) := by
      rw [← isLeapYear_iff]
      simp [hl]
    unfold daysBeforeYear
    simp only [hl, Bool.false_eq_true, if_false]
    omega
  · have hl' : y % 4 = 0 ∧ (¬ y % 100 = 0 ∨ y % 400 = 0) := (isLeapYear_iff y).1 hl
    unfold daysBeforeYear
    simp only [hl, if_true]
    omega

/-- `daysBeforeYear` is monotone. -/
theorem daysBeforeYear_mono {y1 y2 : Nat} (h : y1 ≤ y2) :
    daysBeforeYear y1 ≤ daysBeforeYear y2 := by
  unfold daysBeforeYear
  have h1 : y1 - 1 ≤ y2 - 1 := by omega
  have h4 : (y1 - 1) / 4 ≤ (y2 - 1) / 4 := Nat.div_le_div_right h1
  have h400 : (y1 - 1) / 400 ≤ (y2 - 1) / 400 := Nat.div_le_div_right h1
  have hlip : (y2 - 1) / 100 ≤ (y1 - 1) / 100 + ((y2 - 1) - (y1 - 1)) := by
    have h2 : (y2 - 1) ≤ (y1 - 1) + 100 * ((y2 - 1) - (y1 - 1)) := by omega
    have h3 : (y2 - 1) / 100 ≤ ((y1 - 1) + 100 * ((y2 - 1) - (y1 - 1))) / 100 :=
      Nat.div_le_div_right h2
    rwa [Nat.add_mul_div_left _ _ (by norm_num)] at h3
  have hself : (y1 - 1) / 100 ≤ y1 - 1 := Nat.div_le_self _ _
  omega

/-- A valid month-day pair stays within the year's length. -/
theorem daysBeforeMonth_add_day_le (y m d : Nat) (hm1 : 1 ≤ m) (hm2 : m ≤ 12)
    (hd : d ≤ daysInMonth y m) :
    daysBeforeMonth y m + d ≤ 365 + (if isLeapYear y = true then 1 else 0) := by
  cases hl : isLeapYear y <;>
    interval_cases m <;>
      simp [daysBeforeMonth, daysInMonth, hl] at hd ⊢ <;> omega

/-- A valid date's ordinal stays within its year. -/
theorem toOrdinal_le_daysBeforeYear_succ (y m d : Nat) (hy : 1 ≤ y) (hm1 : 1 ≤ m)
    (hm2 : m ≤ 12) (hd : d ≤ daysInMonth y m) :
    toOrdinal y m d ≤ daysBeforeYear (y + 1) := by
  have hs := daysBeforeYear_succ y hy
  have hb := daysBeforeMonth_add_day_le y m d hm1 hm2 hd
  unfold toOrdinal
  cases hl : isLeapYear y <;>
    simp only [hl, Bool.false_eq_true, if_false, if_true] at hs hb <;> omega

/-- Within one year, an earlier month's day precedes a later month's day. -/
theorem daysBeforeMonth_lt (y m1 d1 m2 d2 : Nat) (h1 : 1 ≤ m1) (hm : m1 < m2)
    (h2 : m2 ≤ 12) (hd1 : d1 ≤ daysInMonth y m1) (hd2 : 1 ≤ d2) :
    daysBeforeMonth y m1 + d1 < daysBeforeMonth y m2 + d2 := by
  have h1b : m1 ≤ 11 := by omega
  cases hl : isLeapYear y <;>
    interval_cases m1 <;> interval_cases m2 <;>
      simp [daysBeforeMonth, daysInMonth, hl] at hd1 ⊢ <;> omega

/-- `toordinal` is strictly monotone in the lexicographic date order, on
valid dates. -/
theorem toOrdinal_lt_of_dateLt (y1 m1 d1 y2 m2 d2 : Nat) (h1y : 1 ≤ y1)
    (h1m : 1 ≤ m1) (h1m2 : m1 ≤ 12) (h1dm : d1 ≤ daysInMonth y1 m1)
    (h2m : 1 ≤ m2) (h2m2 : m2 ≤ 12) (h2d : 1 ≤ d2)
    (hlt : y1 < y2 ∨ (y1 = y2 ∧ (m1 < m2 ∨ (m1 = m2 ∧ d1 < d2)))) :
    toOrdinal y1 m1 d1 < toOrdinal y2 m2 d2 := by
  rcases hlt with hy | ⟨rfl, hm | ⟨rfl, hd⟩⟩
  · have hb := toOrdinal_le_daysBeforeYear_succ y1 m1 d1 h1y h1m h1m2 h1dm
    have hmono := daysBeforeYear_mono (show y1 + 1 ≤ y2 by omega)
    have : daysBeforeYear y2 < toOrdinal y2 m2 d2 := by
      unfold toOrdinal; omega
    omega
  · have := daysBeforeMonth_lt y1 m1 d1 m2 d2 h1m hm h2m2 h1dm h2d
    unfold toOrdinal
    omega
  · unfold toOrdinal
    omega

/-- `fieldsLexLE` when the years differ. -/
theorem fieldsLexLE_year (a b : DateTime) (h : a.year ≠ b.year) :
    fieldsLexLE a b = decide (a.year < b.year) := by
  unfold fieldsLexLE
  rw [if_pos h]

/-- `fieldsLexLE` when only the months differ. -/
theorem fieldsLexLE_month (a b : DateTime) (hy : a.year = b.year)
    (h : a.month ≠ b.month) :
    fieldsLexLE a b = decide (a.month < b.month) := by
  unfold fieldsLexLE
  rw [if_neg (not_not_intro hy), if_pos h]

/-- `fieldsLexLE` when only the days differ. -/
theorem fieldsLexLE_day (a b : DateTime) (hy : a.year = b.year)
    (hm : a.month = b.month) (h : a.day ≠ b.day) :
    fieldsLexLE a b = decide (a.day < b.day) := by
  unfold fieldsLexLE
  rw [if_neg (not_not_intro hy), if_neg (not_not_intro hm), if_pos h]

/-- On field-valid values, Python's naive field-lexicographic comparison is
exactly the real-microsecond comparison. -/
theorem fieldsLexLE_iff (a b : DateTime) (ha : a.FieldsInRange) (hb : b.FieldsInRange) :
    fieldsLexLE a b = true ↔ a.naiveEpochMicros ≤ b.naiveEpochMicros := by
  obtain ⟨ha1, ha2, ha3, ha4, ha5, ha6, ha7, ha8, ha9⟩ := ha
  obtain ⟨hb1, hb2, hb3, hb4, hb5, hb6, hb7, hb8, hb9⟩ := hb
  have hfwd : ∀ u1 v1 w1 u2 v2 w2 : Nat,
      (1 ≤ u1 ∧ 1 ≤ v1 ∧ v1 ≤ 12 ∧ w1 ≤ daysInMonth u1 v1) →
      (1 ≤ v2 ∧ v2 ≤ 12 ∧ 1 ≤ w2) →
      (u1 < u2 ∨ (u1 = u2 ∧ (v1 < v2 ∨ (v1 = v2 ∧ w1 < w2)))) →
      toOrdinal u1 v1 w1 < toOrdinal u2 v2 w2 := by
    intro u1 v1 w1 u2 v2 w2 hv1 hv2 hlt
    exact toOrdinal_lt_of_dateLt u1 v1 w1 u2 v2 w2 hv1.1 hv1.2.1 hv1.2.2.1
      hv1.2.2.2 hv2.1 hv2.2.1 hv2.2.2 hlt
  unfold DateTime.naiveEpochMicros
  by_cases hy : a.year = b.year
  · by_cases hm : a.month = b.month
    · by_cases hd : a.day = b.day
      · by_cases hh : a.hour = b.hour <;> by_cases hmi : a.minute = b.minute <;>
          by_cases hs2 : a.second = b.second <;>
            simp [fieldsLexLE, hy, hm, hd, hh, hmi, hs2] <;> omega
      · rw [hy, hm] at ha5
        have l1 : a.day < b.day →
            toOrdinal b.year b.month a.day < toOrdinal b.year b.month b.day :=
          fun h => hfwd _ _ _ _ _ _ ⟨hb1, hb2, hb3, ha5⟩ ⟨hb2, hb3, hb4⟩
            (Or.inr ⟨rfl, Or.inr ⟨rfl, h⟩⟩)
        have l2 : b.day < a.day →
            toOrdinal b.year b.month b.day < toOrdinal b.year b.month a.day :=
          fun h => hfwd _ _ _ _ _ _ ⟨hb1, hb2, hb3, hb5⟩ ⟨hb2, hb3, ha4⟩
            (Or.inr ⟨rfl, Or.inr ⟨rfl, h⟩⟩)
        rw [fieldsLexLE_day a b hy hm hd, decide_eq_true_eq, hy, hm]
        constructor
        · intro h
          have hlt := l1 h
          omega
        · intro h
          by_contra hc
          have hlt := l2 (by omega)
          omega
    · rw [hy] at ha5
      have l1 : a.month < b.month →
          toOrdinal b.year a.month a.day < toOrdinal b.year b.month b.day :=
        fun h => hfwd _ _ _ _ _ _ ⟨hb1, ha2, ha3, ha5⟩ ⟨hb2, hb3, hb4⟩
          (Or.inr ⟨rfl, Or.inl h⟩)
      have l2 : b.month < a.month →
          toOrdinal b.year b.month b.day < toOrdinal b.year a.month a.day :=
        fun h => hfwd _ _ _ _ _ _ ⟨hb1, hb2, hb3, hb5⟩ ⟨ha2, ha3, ha4⟩
          (Or.inr ⟨rfl, Or.inl h⟩)
      rw [fieldsLexLE_month a b hy hm, decide_eq_true_eq, hy]
      constructor
      · intro h
        have hlt := l1 h
        omega
      · intro h
        by_contra hc
        have hlt := l2 (by omega)
        omega
  · have l1 : a.year < b.year →
        toOrdinal a.year a.month a.day < toOrdinal b.year b.month b.day :=
      fun h => hfwd _ _ _ _ _ _ ⟨ha1, ha2, ha3, ha5⟩ ⟨hb2, hb3, hb4⟩ (Or.inl h)
    have l2 : b.year < a.year →
        toOrdinal b.year b.month b.day < toOrdinal a.year a.month a.day :=
      fun h => hfwd _ _ _ _ _ _ ⟨hb1, hb2, hb3, hb5⟩ ⟨ha2, ha3, ha4⟩ (Or.inl h)
    rw [fieldsLexLE_year a b hy, decide_eq_true_eq]
    constructor
    · intro h
      have hlt := l1 h
      omega
    · intro h
      by_contra hc
      have hlt := l2 (by omega)
      omega

/-- Every digit accepted by `digitVal?` is at most 9. -/
theorem digitVal?_le_nine (c : Char) (d : Nat) (h : digitVal? c = some d) : d ≤ 9 := by
  unfold digitVal? at h
  split at h
  · rename_i hc
    simp only [Option.some.injEq] at h
    subst h
    simp only [Char.isDigit, Bool.and_eq_true, decide_eq_true_eq] at hc
    have h57 : c.toNat ≤ 57 := UInt32.toNat_le_of_le (by norm_num) hc.2
    omega
  · exact absurd h (by simp)

/-- The digit run is made of digits. -/
theorem takeDigitRun_le_nine (cs : List Char) :
    ∀ d ∈ (takeDigitRun cs).1, d ≤ 9 := by
  induction cs with
  | nil => intro d hd; simp [takeDigitRun] at hd
  | cons c rest ih =>
    intro d hd
    unfold takeDigitRun at hd
    cases hv : digitVal? c with
    | none => rw [hv] at hd; simp at hd
    | some v =>
      rw [hv] at hd
      simp only [List.mem_cons] at hd
      rcases hd with rfl | hd
      · exact digitVal?_le_nine c d hv
      · exact ih d hd

/-- Folding decimal digits stays below the radix power (accumulator form). -/
theorem foldl_digits_lt (ds : List Nat) :
    ∀ a : Nat, (∀ d ∈ ds, d ≤ 9) →
      ds.foldl (fun a d => a * 10 + d) a < (a + 1) * 10 ^ ds.length := by
  induction ds with
  | nil => intro a _; simp
  | cons d ds ih =>
    intro a hle
    have hd : d ≤ 9 := hle d (List.mem_cons_self d ds)
    have hrec := ih (a * 10 + d) (fun x hx => hle x (List.mem_cons_of_mem d hx))
    have hstep : (a * 10 + d + 1) * 10 ^ ds.length ≤ (a + 1) * 10 ^ (ds.length + 1) := by
      have : a * 10 + d + 1 ≤ (a + 1) * 10 := by omega
      calc (a * 10 + d + 1) * 10 ^ ds.length
          ≤ (a + 1) * 10 * 10 ^ ds.length := Nat.mul_le_mul_right _ this
        _ = (a + 1) * 10 ^ (ds.length + 1) := by ring
    simp only [List.foldl_cons, List.length_cons]
    exact lt_of_lt_of_le hrec hstep

/-- A list of `n` decimal digits encodes a value below `10 ^ n`. -/
theorem digitsToNat_lt (ds : List Nat) (h : ∀ d ∈ ds, d ≤ 9) :
    digitsToNat ds < 10 ^ ds.length := by
  have := foldl_digits_lt ds 0 h
  simpa [digitsToNat] using this

/-- The microsecond field out of `parseHMSF` is in range. -/
theorem parseHMSF_us_le (cs : List Char) (hh mm ss us : Nat) (rest : List Char)
    (hp : parseHMSF cs = some (hh, mm, ss, us, rest)) : us ≤ 999999 := by
  unfold parseHMSF at hp
  cases h2 : parse2Digits cs with
  | none => rw [h2] at hp; exact absurd hp (by simp)
  | some v2 =>
    rw [h2] at hp
    obtain ⟨h1, cs1⟩ := v2
    simp only [Option.bind_eq_bind, Option.some_bind] at hp
    split at hp
    · rename_i cs2
      cases h3 : parse2Digits cs2 with
      | none => rw [h3] at hp; exact absurd hp (by simp)
      | some v3 =>
        rw [h3] at hp
        obtain ⟨m1, cs3⟩ := v3
        simp only [Option.bind_eq_bind, Option.some_bind] at hp
        split at hp
        · rename_i cs4
          cases h4 : parse2Digits cs4 with
          | none => rw [h4] at hp; exact absurd hp (by simp)
          | some v4 =>
            rw [h4] at hp
            obtain ⟨s1, cs5⟩ := v4
            simp only [Option.bind_eq_bind, Option.some_bind] at hp
            split at hp
            · rename_i cs6
              cases h6 : takeDigitRun cs6 with
              | mk ds cs7 =>
                rw [h6] at hp
                have hds : ∀ d ∈ ds, d ≤ 9 := by
                  have := takeDigitRun_le_nine cs6
                  rw [h6] at this
                  exact this
                split at hp
                · rename_i hlen
                  simp only [Option.pure_def, Option.some.injEq, Prod.mk.injEq] at hp
                  have hlt := digitsToNat_lt ds hds
                  rw [hlen] at hlt
                  omega
                · split at hp
                  · rename_i hlen
                    simp only [Option.pure_def, Option.some.injEq, Prod.mk.injEq] at hp
                    have hlt := digitsToNat_lt ds hds
                    rw [hlen] at hlt
                    omega
                  · exact absurd hp (by simp)
            · simp only [Option.pure_def, Option.some.injEq, Prod.mk.injEq] at hp
              omega
        · simp only [Option.pure_def, Option.some.injEq, Prod.mk.injEq] at hp
          omega
    · simp only [Option.pure_def, Option.some.injEq, Prod.mk.injEq] at hp
      omega

/-- Every field out of `parseTimeAndTz` is in the `time` constructor's range
(the guard enforces hour/minute/second; `parseHMSF` bounds the fraction). -/
theorem parseTimeAndTz_bounds (cs : List Char) (h m s us : Nat) (tz : Option Int)
    (hp : parseTimeAndTz cs = some (h, m, s, us, tz)) :
    h ≤ 23 ∧ m ≤ 59 ∧ s ≤ 59 ∧ us ≤ 999999 := by
  unfold parseTimeAndTz at hp
  cases hq : parseHMSF cs with
  | none => rw [hq] at hp; exact absurd hp (by simp)
  | some v =>
    rw [hq] at hp
    obtain ⟨h1, m1, s1, us1, rest1⟩ := v
    have hus := parseHMSF_us_le cs h1 m1 s1 us1 rest1 hq
    simp only [Option.bind_eq_bind, Option.some_bind] at hp
    split at hp
    · exact absurd hp (by simp)
    · rename_i hcond
      simp only [Bool.or_eq_true, decide_eq_true_eq, not_or] at hcond
      split at hp
      · simp only [Option.pure_def, Option.some.injEq, Prod.mk.injEq] at hp
        omega
      · rename_i c tzrest
        split at hp
        · simp only [Option.pure_def, Option.bind_eq_bind, Option.some_bind] at hp
          split at hp
          · cases hr : parseHMSF tzrest with
            | none => rw [hr] at hp; exact absurd hp (by simp)
            | some w =>
              rw [hr] at hp
              obtain ⟨th, tm, ts, tus, rest2⟩ := w
              simp only [Option.bind_eq_bind, Option.some_bind] at hp
              split at hp
              · exact absurd hp (by simp)
              · split at hp
                · exact absurd hp (by simp)
                · simp only [Option.pure_def, Option.some.injEq, Prod.mk.injEq] at hp
                  omega
          · exact absurd hp (by simp)
        · split at hp
          · simp only [Option.pure_def, Option.bind_eq_bind, Option.some_bind] at hp
            split at hp
            · cases hr : parseHMSF tzrest with
              | none => rw [hr] at hp; exact absurd hp (by simp)
              | some w =>
                rw [hr] at hp
                obtain ⟨th, tm, ts, tus, rest2⟩ := w
                simp only [Option.bind_eq_bind, Option.some_bind] at hp
                split at hp
                · exact absurd hp (by simp)
                · split at hp
                  · exact absurd hp (by simp)
                  · simp only [Option.pure_def, Option.some.injEq, Prod.mk.injEq] at hp
                    omega
            · exact absurd hp (by simp)
          · exact absurd hp (by simp)

/-- Every timestamp `fromisoformat` returns is field-valid: the date guard
and the time bounds together give `FieldsInRange`. -/
theorem fromisoformat_inRange (s : String) (dt : DateTime)
    (hp : fromisoformat s = some dt) : dt.FieldsInRange := by
  cases h4 : parse4Digits s.data with
  | none => simp [fromisoformat, h4] at hp
  | some v4 =>
    obtain ⟨y, cs0⟩ := v4
    cases he1 : expectChar '-' cs0 with
    | none => simp [fromisoformat, h4, he1] at hp
    | some cs1 =>
      cases h2 : parse2Digits cs1 with
      | none => simp [fromisoformat, h4, he1, h2] at hp
      | some v2 =>
        obtain ⟨mo, cs2⟩ := v2
        cases he2 : expectChar '-' cs2 with
        | none => simp [fromisoformat, h4, he1, h2, he2] at hp
        | some cs3 =>
          cases h5 : parse2Digits cs3 with
          | none => simp [fromisoformat, h4, he1, h2, he2, h5] at hp
          | some v5 =>
            obtain ⟨dy, cs4⟩ := v5
            simp only [fromisoformat, h4, he1, h2, he2, h5, Option.bind_eq_bind,
              Option.some_bind, Option.pure_def] at hp
            split at hp
            · exact absurd hp (by simp)
            · rename_i hrange
              simp only [Bool.or_eq_true, decide_eq_true_eq, not_or, not_lt] at hrange
              split at hp
              · simp only [Option.some.injEq] at hp
                subst hp
                refine ⟨?_, ?_, ?_, ?_, ?_, ?_, ?_, ?_, ?_⟩ <;> simp <;> omega
              · rename_i _sep timeChars
                split at hp
                · exact absurd hp (by simp)
                · cases ht : parseTimeAndTz timeChars with
                  | none => rw [ht] at hp; exact absurd hp (by simp)
                  | some vt =>
                    rw [ht] at hp
                    obtain ⟨h, mi, sec, us, tz⟩ := vt
                    have hb := parseTimeAndTz_bounds timeChars h mi sec us tz ht
                    simp only [Option.bind_eq_bind, Option.some_bind,
                      Option.some.injEq] at hp
                    subst hp
                    refine ⟨?_, ?_, ?_, ?_, ?_, ?_, ?_, ?_, ?_⟩ <;> simp <;> omega

/-- Every timestamp `parse_timestamp` returns is field-valid. -/
theorem parse_timestamp_inRange (s : String) (dt : DateTime)
    (hp : parse_timestamp s = some dt) : dt.FieldsInRange := by
  unfold parse_timestamp at hp
  split at hp
  · exact absurd hp (by simp)
  · split at hp
    · exact fromisoformat_inRange _ dt hp
    · exact fromisoformat_inRange _ dt hp

/-- Wherever Python's `datetime` comparison is defined (it raises `TypeError`
on a naive/aware mix), it agrees with the order of `DateTime.key`. -/
theorem pyLE_key_agree (a b : DateTime) (ha : a.FieldsInRange) (hb : b.FieldsInRange)
    (r : Bool) (hp : pyLE a b = some r) :
    r = true ↔ DateTime.key a ≤ DateTime.key b := by
  unfold pyLE at hp
  unfold DateTime.key
  cases hoa : a.tzOffsetMicros with
  | none =>
    cases hob : b.tzOffsetMicros with
    | none =>
      rw [hoa, hob] at hp
      simp only [Option.some.injEq] at hp
      subst hp
      simp only [Option.getD_none, sub_zero]
      rw [fieldsLexLE_iff a b ha hb]
      exact Nat.cast_le.symm
    | some ob => rw [hoa, hob] at hp; exact absurd hp (by simp)
  | some oa =>
    cases hob : b.tzOffsetMicros with
    | none => rw [hoa, hob] at hp; exact absurd hp (by simp)
    | some ob =>
      rw [hoa, hob] at hp
      simp only [Option.some.injEq] at hp
      subst hp
      simp only [Option.getD_some, decide_eq_true_eq]

/-- Entry used by the C2 fixture: qualifies for Recently Added, with its
added timestamp on day `d` of January 2024. -/
def mkAdded (d : Nat) : Entry :=
  { id := d, album := "A", artist := "B", apple_link := "",
    spotify_link := "https://open.spotify.com/album/Q", status := "Open",
    date_added := some ⟨2024, 1, d, 0, 0, 0, 0, some 0⟩, date_finished := none,
    date_added_raw := "", date_finished_raw := "", rating := "",
    apple_embed := none, spotify_embed := some "e" }

/-- The 25 fixture days, shuffled. -/
def days25 : List Nat :=
  [3, 14, 7, 25, 1, 9, 22, 5, 18, 11, 2, 24, 6, 16, 8, 20, 4, 13, 10, 23, 12, 19, 15, 21, 17]

/-- The 20 newest fixture days, descending. -/
def days20desc : List Nat :=
  [25, 24, 23, 22, 21, 20, 19, 18, 17, 16, 15, 14, 13, 12, 11, 10, 9, 8, 7, 6]

/-- C2: buckets B and C are sorted descending by their timestamp key (ties
keep stable input order: restricted to any one key value the sorted bucket
is the classified sub-list in input order), and only after sorting is each
truncated to its first 20 elements; bucket A is neither sorted nor truncated
(it is exactly the input-order filter). On the 25-record fixture exactly the
20 newest appear, in descending timestamp order. The key realizes Python's
own `datetime` ordering wherever that ordering exists: whenever Python's
comparison `pyLE` returns a verdict (it raises `TypeError` on a naive/aware
mix, modelled as `none`, which would abort the sort), the verdict is exactly
the key comparison — for two aware values both are the UTC-instant order,
for two naive field-valid values the field-lexicographic order coincides
with the key order — and every timestamp `parse_timestamp` produces is
field-valid. -/
theorem buckets_sorted_then_truncated :
    (∀ l : List Entry,
      (categorize_albums l).recently_added.Pairwise
        (fun x y => addedKey y ≤ addedKey x) ∧
      (categorize_albums l).recently_finished.Pairwise
        (fun x y => finishedKey y ≤ finishedKey x) ∧
      (categorize_albums l).recently_added.length ≤ 20 ∧
      (categorize_albums l).recently_finished.length ≤ 20 ∧
      (categorize_albums l).recently_added =
        (sortDesc addedKey (l.filter goesAdded)).take 20 ∧
      (categorize_albums l).recently_finished =
        (sortDesc finishedKey (l.filter goesFinished)).take 20 ∧
      (∀ k : Int,
        (sortDesc addedKey (l.filter goesAdded)).filter
            (fun e => decide (addedKey e = k)) =
          (l.filter goesAdded).filter (fun e => decide (addedKey e = k))) ∧
      (∀ k : Int,
        (sortDesc finishedKey (l.filter goesFinished)).filter
            (fun e => decide (finishedKey e = k)) =
          (l.filter goesFinished).filter (fun e => decide (finishedKey e = k))) ∧
      (categorize_albums l).current_listening = l.filter goesCurrent) ∧
    (categorize_albums (days25.map mkAdded)).recently_added =
      days20desc.map mkAdded ∧
    (∀ a b : DateTime, a.FieldsInRange → b.FieldsInRange →
      ∀ r : Bool, pyLE a b = some r → (r = true ↔ DateTime.key a ≤ DateTime.key b)) ∧
    (∀ s : String, ∀ dt : DateTime, parse_timestamp s = some dt →
      dt.FieldsInRange) := by
  refine ⟨?_, ?_, ?_, ?_⟩
  · intro l
    refine ⟨?_, ?_, ?_, ?_, ?_, ?_, ?_, ?_, ?_⟩
    · rw [categorize_eq]
      exact List.Pairwise.sublist (List.take_sublist 20 _) (pairwise_sortDesc _ _)
    · rw [categorize_eq]
      exact List.Pairwise.sublist (List.take_sublist 20 _) (pairwise_sortDesc _ _)
    · rw [categorize_eq]
      simp [List.length_take]
    · rw [categorize_eq]
      simp [List.length_take]
    · rw [categorize_eq]
    · rw [categorize_eq]
    · intro k
      exact filter_sortDesc addedKey k _
    · intro k
      exact filter_sortDesc finishedKey k _
    · rw [categorize_eq]
  · decide
  · intro a b ha hb r hp
    exact pyLE_key_agree a b ha hb r hp
  · intro s dt hp
    exact parse_timestamp_inRange s dt hp

/-! ## The renderer: `generate_html` and friends, embedded string-exactly -/

/-- Month abbreviations of C `strftime`'s `%b` (the fallback arm is
unreachable for a parsed timestamp, whose month is 1..12). -/
def monthAbbrev : Nat → String
  | 1 => "Jan" | 2 => "Feb" | 3 => "Mar" | 4 => "Apr" | 5 => "May" | 6 => "Jun"
  | 7 => "Jul" | 8 => "Aug" | 9 => "Sep" | 10 => "Oct" | 11 => "Nov" | 12 => "Dec"
  | _ => ""

/-- Zero-padded two-digit day of `strftime`'s `%d`. -/
def pad2 (n : Nat) : String := if n < 10 then "0" ++ toString n else toString n

/-- `MusicSiteBuilder.format_date_display`: `strftime('%b %d, %Y')`, empty
for an absent date. -/
def format_date_display : Option DateTime → String
  | none => ""
  | some dt => monthAbbrev dt.month ++ " " ++ pad2 dt.day ++ ", " ++ toString dt.year

/-- `MusicSiteBuilder.generate_album_card_html`, string-for-string (the
literal segments are extracted verbatim from the source f-strings; Python
truthiness of an optional embed string means present and non-empty). -/
def generate_album_card_html (album : Entry) (is_current : Bool) : String :=
  let embed_html : String :=
    if is_current then
      if (album.spotify_embed.getD "") ≠ "" then
        "\n                <div class=\"embed-container\">\n                    <iframe src=\""
    ++ (album.spotify_embed.getD "")
    ++ "\" \n                            width=\"100%\" height=\"380\" frameborder=\"0\" \n                            allowtransparency=\"true\" allow=\"encrypted-media\"\n                            title=\"Spotify - "
    ++ album.album
    ++ "\"\n                            style=\"border-radius: 10px;\"></iframe>\n                </div>\n                "
      else if (album.apple_embed.getD "") ≠ "" then
        "\n                <div class=\"embed-container\">\n                    <iframe src=\""
    ++ (album.apple_embed.getD "")
    ++ "\" \n                            width=\"100%\" height=\"450\" frameborder=\"0\" \n                            allow=\"autoplay *; encrypted-media *; fullscreen *; clipboard-write\" \n                            style=\"width:100%;max-width:660px;overflow:hidden;border-radius:10px;\"\n                            sandbox=\"allow-forms allow-popups allow-same-origin allow-scripts allow-storage-access-by-user-activation allow-top-navigation-by-user-activation\"\n                            title=\"Apple Music - "
    ++ album.album
    ++ "\"></iframe>\n                </div>\n                "
      else
        "<div class=\"embed-container\"><p class=\"no-embed\">No embed available</p></div>"
    else
      if (album.spotify_embed.getD "") ≠ "" then
        "\n                <div class=\"embed-container\">\n                    <iframe data-src=\""
    ++ (album.spotify_embed.getD "")
    ++ "\" \n                            width=\"100%\" height=\"152\" frameborder=\"0\" \n                            allowtransparency=\"true\" allow=\"encrypted-media\"\n                            title=\"Spotify - "
    ++ album.album
    ++ "\"\n                            style=\"border-radius: 10px;\" class=\"lazy-embed\"></iframe>\n                </div>\n                "
      else if (album.apple_embed.getD "") ≠ "" then
        "\n                <div class=\"embed-container\">\n                    <iframe data-src=\""
    ++ (album.apple_embed.getD "")
    ++ "\" \n                            width=\"100%\" height=\"175\" frameborder=\"0\" \n                            allow=\"autoplay *; encrypted-media *\" \n                            style=\"overflow: hidden; border-radius: 10px;\"\n                            title=\"Apple Music - "
    ++ album.album
    ++ "\" class=\"lazy-embed\"></iframe>\n                </div>\n                "
      else
        "<div class=\"embed-container\"><p class=\"no-embed\">No embed available</p></div>"
  let links_html : String :=
    (if album.apple_link ≠ "" then
      "<a href=\""
    ++ album.apple_link
    ++ "\" target=\"_blank\" class=\"music-link apple\">🍎 Apple Music</a>"
     else "")
    ++ (if album.spotify_link ≠ "" then
      "<a href=\""
    ++ album.spotify_link
    ++ "\" target=\"_blank\" class=\"music-link spotify\">🎵 Spotify</a>"
     else "")
  let date_display : String :=
    if album.date_added.isSome then
      "<span class=\"date\">Added: "
    ++ (format_date_display album.date_added)
    ++ "</span>"
    else if album.date_finished.isSome then
      "<span class=\"date\">Finished: "
    ++ (format_date_display album.date_finished)
    ++ "</span>"
    else ""
  let rating_display : String :=
    if album.rating ≠ "" then
      "<span class=\"rating\">"
    ++ album.rating
    ++ "</span>"
    else ""
  let card_class : String := if is_current then "album-card current-card" else "album-card"
  "\n        <div class=\""
    ++ card_class
    ++ "\" data-status=\""
    ++ (strLower album.status)
    ++ "\">\n            <div class=\"card-header\">\n                <h3 class=\"album-title\">"
    ++ album.album
    ++ "</h3>\n                <p class=\"artist-name\">"
    ++ album.artist
    ++ "</p>\n                <div class=\"card-meta\">\n                    "
    ++ date_display
    ++ "\n                    "
    ++ rating_display
    ++ "\n                </div>\n            </div>\n            \n            "
    ++ embed_html
    ++ "\n            \n            <div class=\"card-links\">\n                "
    ++ links_html
    ++ "\n            </div>\n        </div>\n        "

/-- `MusicSiteBuilder.generate_currently_listening_section`: the empty-state
section, or the first current album as the spotlight card (further current
albums are computed but not rendered). -/
def generate_currently_listening_section (current_albums : List Entry) : String :=
  match current_albums with
  | [] =>
    "\n            <section class=\"currently-listening\">\n                <h2>🎧 Currently Listening</h2>\n                <div class=\"empty-section\">\n                    <p>No album currently being listened to.</p>\n                    <p class=\"subtitle\">The album du jour will appear here when selected.</p>\n                </div>\n            </section>\n            "
  | album :: _ =>
    "\n        <section class=\"currently-listening\">\n            <h2>🎧 Currently Listening</h2>\n            <div class=\"album-du-jour\">\n                "
    ++ (generate_album_card_html album true)
    ++ "\n            </div>\n        </section>\n        "

/-- `MusicSiteBuilder.generate_collapsible_section`. -/
def generate_collapsible_section (section_id title : String) (albums : List Entry) : String :=
  if albums.isEmpty then
    "\n            <section class=\"collapsible-section\" data-section=\""
    ++ section_id
    ++ "\">\n                <button class=\"section-toggle\" aria-expanded=\"false\">\n                    <h2>"
    ++ title
    ++ "</h2>\n                    <span class=\"toggle-icon\">▼</span>\n                </button>\n                <div class=\"section-content\">\n                    <div class=\"empty-section\">\n                        <p>No albums in this section yet.</p>\n                    </div>\n                </div>\n            </section>\n            "
  else
    let album_cards : String :=
      String.join (albums.map (fun album => generate_album_card_html album false))
    "\n        <section class=\"collapsible-section\" data-section=\""
    ++ section_id
    ++ "\">\n            <button class=\"section-toggle\" aria-expanded=\"false\">\n                <h2>"
    ++ title
    ++ " <span class=\"count\">("
    ++ (toString albums.length)
    ++ ")</span></h2>\n                <span class=\"toggle-icon\">▼</span>\n            </button>\n            <div class=\"section-content\">\n                <div class=\"album-grid\">\n                    "
    ++ album_cards
    ++ "\n                </div>\n            </div>\n        </section>\n        "

/-- The literal head of `generate_html`'s document: everything before the
interpolated generation time. -/
def html_before_time : String :=
  "<!DOCTYPE html>\n<html lang=\"en\">\n<head>\n    <meta charset=\"UTF-8\">\n    <meta name=\"viewport\" content=\"width=device-width, initial-scale=1.0\">\n    <title>Album du Jour - Music Discovery</title>\n    <meta name=\"description\" content=\"Personal music library showcase featuring currently listening, recently added, and recently finished albums.\">\n    <link rel=\"icon\" href=\"assets/favicon.svg\" type=\"image/svg+xml\">\n    <link rel=\"stylesheet\" href=\"styles.css\">\n</head>\n<body>\n    <div class=\"animated-background\"></div>\n    <div class=\"container\">\n        <header class=\"site-header\">\n            <h1>🎵 Album du Jour</h1>\n            <p class=\"subtitle\">Personal Music Discovery</p>\n            <p class=\"generation-time\">Generated on "

/-- The rest of `generate_html`'s document after the generation time: the
badge counts, the three sections and the footer. -/
def html_after_time (categorized_data : Categorized) : String :=
  "</p>\n            <div class=\"stats-badges\">\n                <span class=\"badge current\">"
    ++ (toString categorized_data.current_listening.length)
    ++ " Current</span>\n                <span class=\"badge added\">"
    ++ (toString categorized_data.recently_added.length)
    ++ " Recently Added</span>\n                <span class=\"badge finished\">"
    ++ (toString categorized_data.recently_finished.length)
    ++ " Recently Finished</span>\n                <span class=\"badge total\">"
    ++ (toString (categorized_data.current_listening.length + categorized_data.recently_added.length + categorized_data.recently_finished.length))
    ++ " Total</span>\n            </div>\n        </header>\n        \n        <main class=\"content\">\n            "
    ++ (generate_currently_listening_section categorized_data.current_listening)
    ++ "\n            "
    ++ (generate_collapsible_section "recently-added" "📀 Recently Added" categorized_data.recently_added)
    ++ "\n            "
    ++ (generate_collapsible_section "recently-finished" "✅ Recently Finished" categorized_data.recently_finished)
    ++ "\n        </main>\n        \n        <footer class=\"site-footer\">\n            <a href=\"https://docs.google.com/spreadsheets/d/1p8zTsGuQVV81tvuZswIHq-pIXCyZn9ixhg-2HWD9X10/edit?gid=0#gid=0\" \n               target=\"_blank\" class=\"sheets-link\">\n                📊 View Full Library\n            </a>\n            <p>Built with ❤️ by <strong>LUFS Audio</strong></p>\n        </footer>\n    </div>\n    \n    <script src=\"scripts.js\"></script>\n</body>\n</html>"

/-- The document text written by `MusicSiteBuilder.generate_html`,
parameterized by the formatted generation time
(`datetime.now().strftime('%B %d, %Y at %I:%M %p')` in the source). -/
def generate_html_content (categorized_data : Categorized) (now_str : String) : String :=
  html_before_time ++ now_str ++ html_after_time categorized_data

/-- The stylesheet text written by `MusicSiteBuilder.generate_css`
(a constant). -/
def css_content : String :=
  "/* LUFS Brand Colors and Enhanced Design */\n:root \x7b\n    /* LUFS Brand Colors */\n    --lufs-teal: #78BEBA;\n    --lufs-red: #D35233;\n    --lufs-yellow: #E7B225;\n    --lufs-blue: #2069af;\n    --lufs-black: #111111;\n    --lufs-white: #fbf9e2;\n    \n    /* Derived colors */\n    --lufs-teal-alpha: rgba(120, 190, 186, 0.1);\n    --lufs-red-alpha: rgba(211, 82, 51, 0.1);\n    --lufs-yellow-alpha: rgba(231, 178, 37, 0.1);\n    --lufs-blue-alpha: rgba(32, 105, 175, 0.1);\n    \n    /* Gradients */\n    --lufs-gradient: linear-gradient(135deg, var(--lufs-teal), var(--lufs-blue));\n    --lufs-border-gradient: linear-gradient(90deg, var(--lufs-teal), var(--lufs-yellow), var(--lufs-red), var(--lufs-blue));\n    \n    /* Layout */\n    --container-max-width: 1400px;\n    --container-padding: 2rem;\n    --border-radius: 12px;\n    --transition: all 0.3s ease;\n\x7d\n\n/* Reset and base styles */\n* \x7b\n    box-sizing: border-box;\n    margin: 0;\n    padding: 0;\n\x7d\n\nbody \x7b\n    font-family: -apple-system, BlinkMacSystemFont, 'Segoe UI', 'Roboto', 'Helvetica Neue', Arial, sans-serif;\n    background-color: var(--lufs-black);\n    color: var(--lufs-white);\n    line-height: 1.6;\n    overflow-x: hidden;\n\x7d\n\n/* Animated Background */\n.animated-background \x7b\n    position: fixed;\n    top: 0;\n    left: 0;\n    width: 100%;\n    height: 100%;\n    z-index: -1;\n    background: var(--lufs-black);\n    overflow: hidden;\n\x7d\n\n.animated-background::before \x7b\n    content: '';\n    position: absolute;\n    top: -50%;\n    left: -50%;\n    width: 200%;\n    height: 200%;\n    background: \n        radial-gradient(circle at 20% 80%, var(--lufs-teal-alpha) 0%, transparent 50%),\n        radial-gradient(circle at 80% 20%, var(--lufs-red-alpha) 0%, transparent 50%),\n        radial-gradient(circle at 40% 40%, var(--lufs-yellow-alpha) 0%, transparent 50%),\n        radial-gradient(circle at 60% 60%, var(--lufs-blue-alpha) 0%, transparent 50%);\n    animation: float 20s ease-in-out infinite;\n\x7d\n\n@keyframes float \x7b\n    0%, 100% \x7b \n        transform: translate(0, 0) rotate(0deg); \n    \x7d\n    25% \x7b \n        transform: translate(30px, -30px) rotate(90deg); \n    \x7d\n    50% \x7b \n        transform: translate(-20px, 20px) rotate(180deg); \n    \x7d\n    75% \x7b \n        transform: translate(20px, -10px) rotate(270deg); \n    \x7d\n\x7d\n\n/* Container */\n.container \x7b\n    max-width: var(--container-max-width);\n    margin: 0 auto;\n    padding: var(--container-padding);\n    position: relative;\n    z-index: 1;\n\x7d\n\n/* Header */\n.site-header \x7b\n    text-align: center;\n    margin-bottom: 3rem;\n    padding: 2rem 0;\n\x7d\n\n.site-header h1 \x7b\n    font-size: clamp(2.5rem, 5vw, 4rem);\n    font-weight: 700;\n    background: var(--lufs-gradient);\n    -webkit-background-clip: text;\n    -webkit-text-fill-color: transparent;\n    background-clip: text;\n    margin-bottom: 0.5rem;\n\x7d\n\n.subtitle \x7b\n    color: var(--lufs-teal);\n    font-size: 1.2rem;\n    margin-bottom: 0.5rem;\n    font-weight: 500;\n\x7d\n\n.generation-time \x7b\n    color: rgba(251, 249, 226, 0.7);\n    font-size: 0.9rem;\n    margin-bottom: 1.5rem;\n\x7d\n\n.stats-badges \x7b\n    display: flex;\n    justify-content: center;\n    gap: 1rem;\n    flex-wrap: wrap;\n\x7d\n\n.badge \x7b\n    padding: 0.5rem 1rem;\n    border-radius: 20px;\n    font-weight: 600;\n    font-size: 0.9rem;\n    transition: var(--transition);\n\x7d\n\n.badge:hover \x7b\n    transform: translateY(-2px);\n\x7d\n\n.badge.current \x7b \n    background-color: var(--lufs-yellow); \n    color: var(--lufs-black); \n\x7d\n\n.badge.added \x7b \n    background-color: var(--lufs-blue); \n    color: var(--lufs-white); \n\x7d\n\n.badge.finished \x7b \n    background-color: var(--lufs-teal); \n    color: var(--lufs-black); \n\x7d\n\n.badge.total \x7b \n    background-color: rgba(251, 249, 226, 0.2); \n    color: var(--lufs-white); \n    border: 1px solid var(--lufs-white);\n\x7d\n\n/* Currently Listening Section */\n.currently-listening \x7b\n    margin-bottom: 3rem;\n\x7d\n\n.currently-listening h2 \x7b\n    font-size: 2rem;\n    margin-bottom: 1.5rem;\n    text-align: center;\n    color: var(--lufs-white);\n\x7d\n\n.album-du-jour \x7b\n    display: flex;\n    justify-content: center;\n\x7d\n\n.album-du-jour .album-card \x7b\n    max-width: 600px;\n    width: 100%;\n    background: var(--lufs-gradient);\n    border: 3px solid var(--lufs-yellow);\n    box-shadow: \n        0 0 30px rgba(231, 178, 37, 0.3),\n        0 10px 40px rgba(0, 0, 0, 0.3);\n    transform: scale(1.02);\n\x7d\n\n/* Collapsible Sections */\n.collapsible-section \x7b\n    margin-bottom: 2rem;\n    border-radius: var(--border-radius);\n    overflow: hidden;\n    background: rgba(251, 249, 226, 0.05);\n    border: 1px solid rgba(251, 249, 226, 0.1);\n\x7d\n\n.section-toggle \x7b\n    width: 100%;\n    background: transparent;\n    border: none;\n    padding: 1.5rem;\n    color: var(--lufs-white);\n    cursor: pointer;\n    display: flex;\n    justify-content: space-between;\n    align-items: center;\n    font-size: 1rem;\n    transition: var(--transition);\n    min-height: 44px; /* Touch-friendly */\n\x7d\n\n.section-toggle:hover \x7b\n    background: rgba(251, 249, 226, 0.1);\n\x7d\n\n.section-toggle h2 \x7b\n    font-size: 1.5rem;\n    font-weight: 600;\n\x7d\n\n.count \x7b\n    color: var(--lufs-teal);\n    font-weight: 400;\n\x7d\n\n.toggle-icon \x7b\n    font-size: 1.2rem;\n    transition: transform 0.3s ease;\n    color: var(--lufs-teal);\n\x7d\n\n.section-toggle[aria-expanded=\"true\"] .toggle-icon \x7b\n    transform: rotate(180deg);\n\x7d\n\n.section-content \x7b\n    max-height: 0;\n    overflow: hidden;\n    transition: max-height 0.3s ease;\n\x7d\n\n.section-toggle[aria-expanded=\"true\"] + .section-content \x7b\n    max-height: none;\n\x7d\n\n/* Album Grid */\n.album-grid \x7b\n    display: grid;\n    grid-template-columns: repeat(auto-fit, minmax(300px, 1fr));\n    gap: 1.5rem;\n    padding: 1.5rem;\n\x7d\n\n/* Album Cards */\n.album-card \x7b\n    background: rgba(251, 249, 226, 0.05);\n    border-radius: var(--border-radius);\n    padding: 1.5rem;\n    border: 1px solid transparent;\n    background-image: var(--lufs-border-gradient);\n    background-origin: border-box;\n    background-clip: padding-box, border-box;\n    transition: var(--transition);\n    position: relative;\n    overflow: hidden;\n\x7d\n\n.album-card::before \x7b\n    content: '';\n    position: absolute;\n    top: 0;\n    left: 0;\n    right: 0;\n    bottom: 0;\n    background: rgba(17, 17, 17, 0.8);\n    z-index: -1;\n\x7d\n\n.album-card:hover \x7b\n    transform: translateY(-4px);\n    box-shadow: 0 8px 32px rgba(120, 190, 186, 0.2);\n\x7d\n\n.card-header \x7b\n    margin-bottom: 1rem;\n\x7d\n\n.album-title \x7b\n    font-size: 1.2rem;\n    font-weight: 600;\n    color: var(--lufs-white);\n    margin-bottom: 0.25rem;\n    line-height: 1.3;\n\x7d\n\n.artist-name \x7b\n    color: var(--lufs-teal);\n    font-size: 1rem;\n    margin-bottom: 0.5rem;\n\x7d\n\n.card-meta \x7b\n    display: flex;\n    gap: 1rem;\n    font-size: 0.85rem;\n    color: rgba(251, 249, 226, 0.7);\n\x7d\n\n.date \x7b\n    color: var(--lufs-yellow);\n\x7d\n\n.rating \x7b\n    color: var(--lufs-yellow);\n\x7d\n\n/* Embed Container */\n.embed-container \x7b\n    margin: 1rem 0;\n    border-radius: var(--border-radius);\n    overflow: hidden;\n    background: rgba(0, 0, 0, 0.3);\n\x7d\n\n.embed-container iframe \x7b\n    width: 100%;\n    border: none;\n    border-radius: var(--border-radius);\n\x7d\n\n.no-embed \x7b\n    text-align: center;\n    color: rgba(251, 249, 226, 0.5);\n    padding: 2rem;\n    font-style: italic;\n\x7d\n\n/* Music Links */\n.card-links \x7b\n    display: flex;\n    gap: 0.75rem;\n    margin-top: 1rem;\n\x7d\n\n.music-link \x7b\n    flex: 1;\n    padding: 0.75rem;\n    border-radius: 8px;\n    text-decoration: none;\n    text-align: center;\n    font-weight: 600;\n    font-size: 0.9rem;\n    transition: var(--transition);\n    border: 2px solid transparent;\n\x7d\n\n.music-link.apple \x7b\n    background: linear-gradient(135deg, #ff6b6b, #ff8e8e);\n    color: white;\n\x7d\n\n.music-link.spotify \x7b\n    background: linear-gradient(135deg, #1db954, #1ed760);\n    color: white;\n\x7d\n\n.music-link:hover \x7b\n    transform: translateY(-2px);\n    box-shadow: 0 4px 12px rgba(0, 0, 0, 0.3);\n\x7d\n\n/* Empty Section */\n.empty-section \x7b\n    text-align: center;\n    padding: 3rem 1.5rem;\n    color: rgba(251, 249, 226, 0.6);\n\x7d\n\n.empty-section p \x7b\n    margin-bottom: 0.5rem;\n\x7d\n\n.empty-section .subtitle \x7b\n    font-size: 0.9rem;\n    color: rgba(251, 249, 226, 0.4);\n\x7d\n\n/* Footer */\n.site-footer \x7b\n    text-align: center;\n    margin-top: 4rem;\n    padding: 2rem 0;\n    border-top: 1px solid rgba(251, 249, 226, 0.1);\n\x7d\n\n.sheets-link \x7b\n    display: inline-block;\n    padding: 1rem 2rem;\n    background: var(--lufs-gradient);\n    color: var(--lufs-white);\n    text-decoration: none;\n    border-radius: 25px;\n    font-weight: 600;\n    margin-bottom: 1rem;\n    transition: var(--transition);\n\x7d\n\n.sheets-link:hover \x7b\n    transform: translateY(-2px);\n    box-shadow: 0 8px 20px rgba(120, 190, 186, 0.3);\n\x7d\n\n.site-footer p \x7b\n    color: rgba(251, 249, 226, 0.7);\n    font-size: 0.9rem;\n\x7d\n\n/* Responsive Design */\n@media (max-width: 768px) \x7b\n    :root \x7b\n        --container-padding: 1rem;\n    \x7d\n    \n    .album-grid \x7b\n        grid-template-columns: 1fr;\n        gap: 1rem;\n        padding: 1rem;\n    \x7d\n    \n    .stats-badges \x7b\n        gap: 0.5rem;\n    \x7d\n    \n    .badge \x7b\n        font-size: 0.8rem;\n        padding: 0.4rem 0.8rem;\n    \x7d\n    \n    .card-links \x7b\n        flex-direction: column;\n        gap: 0.5rem;\n    \x7d\n    \n    .section-toggle \x7b\n        padding: 1rem;\n    \x7d\n    \n    .section-toggle h2 \x7b\n        font-size: 1.2rem;\n    \x7d\n\x7d\n\n@media (max-width: 480px) \x7b\n    .site-header \x7b\n        margin-bottom: 2rem;\n        padding: 1rem 0;\n    \x7d\n    \n    .album-card \x7b\n        padding: 1rem;\n    \x7d\n    \n    .embed-container iframe \x7b\n        height: 120px !important;\n    \x7d\n    \n    .album-du-jour .embed-container iframe \x7b\n        height: 300px !important;\n    \x7d\n\x7d\n\n/* Touch device optimizations */\n@media (hover: none) \x7b\n    .album-card:hover \x7b\n        transform: none;\n    \x7d\n    \n    .album-card:active \x7b\n        transform: scale(0.98);\n    \x7d\n    \n    .music-link:hover \x7b\n        transform: none;\n    \x7d\n    \n    .music-link:active \x7b\n        transform: scale(0.95);\n    \x7d\n\x7d\n\n/* High contrast mode support */\n@media (prefers-contrast: high) \x7b\n    :root \x7b\n        --lufs-white: #ffffff;\n        --lufs-black: #000000;\n    \x7d\n    \n    .album-card \x7b\n        border: 2px solid var(--lufs-white);\n    \x7d\n\x7d\n\n/* Reduced motion support */\n@media (prefers-reduced-motion: reduce) \x7b\n    * \x7b\n        animation-duration: 0.01ms !important;\n        animation-iteration-count: 1 !important;\n        transition-duration: 0.01ms !important;\n    \x7d\n    \n    .animated-background::before \x7b\n        animation: none;\n    \x7d\n\x7d\n"

/-- The script text written by `MusicSiteBuilder.generate_javascript`
(a constant). -/
def js_content : String :=
  "// Album du Jour - Interactive Functionality\nclass AlbumSections \x7b\n    constructor() \x7b\n        this.initializeCollapsibleSections();\n        this.initializeLazyLoading();\n        this.initializeAccessibility();\n    \x7d\n    \n    initializeCollapsibleSections() \x7b\n        const toggleButtons = document.querySelectorAll('.section-toggle');\n        \n        toggleButtons.forEach(button => \x7b\n            button.addEventListener('click', (e) => \x7b\n                this.toggleSection(e.currentTarget);\n            \x7d);\n        \x7d);\n        \n        // Restore saved states\n        this.restoreSectionStates();\n    \x7d\n    \n    toggleSection(button) \x7b\n        const section = button.closest('.collapsible-section');\n        const content = section.querySelector('.section-content');\n        const icon = section.querySelector('.toggle-icon');\n        const isExpanded = button.getAttribute('aria-expanded') === 'true';\n        \n        // Toggle expanded state\n        button.setAttribute('aria-expanded', !isExpanded);\n        \n        if (!isExpanded) \x7b\n            // Expanding\n            content.style.maxHeight = content.scrollHeight + 'px';\n            icon.style.transform = 'rotate(180deg)';\n            \n            // Load any lazy embeds in this section\n            this.loadLazyEmbedsInSection(section);\n        \x7d else \x7b\n            // Collapsing\n            content.style.maxHeight = '0';\n            icon.style.transform = 'rotate(0deg)';\n        \x7d\n        \n        // Save state to localStorage\n        localStorage.setItem(`section-$\x7bsection.dataset.section\x7d`, !isExpanded);\n    \x7d\n    \n    restoreSectionStates() \x7b\n        const sections = document.querySelectorAll('.collapsible-section');\n        sections.forEach(section => \x7b\n            const savedState = localStorage.getItem(`section-$\x7bsection.dataset.section\x7d`);\n            if (savedState === 'true') \x7b\n                const button = section.querySelector('.section-toggle');\n                // Delay to ensure DOM is ready\n                setTimeout(() => \x7b\n                    this.toggleSection(button);\n                \x7d, 100);\n            \x7d\n        \x7d);\n    \x7d\n    \n    initializeLazyLoading() \x7b\n        // Intersection Observer for lazy loading embeds\n        const embedObserver = new IntersectionObserver((entries) => \x7b\n            entries.forEach(entry => \x7b\n                if (entry.isIntersecting) \x7b\n                    this.loadEmbed(entry.target);\n                    embedObserver.unobserve(entry.target);\n                \x7d\n            \x7d);\n        \x7d, \x7b \n            rootMargin: '100px',\n            threshold: 0.1\n        \x7d);\n        \n        // Observe all lazy embeds\n        document.querySelectorAll('.lazy-embed').forEach(iframe => \x7b\n            embedObserver.observe(iframe);\n        \x7d);\n    \x7d\n    \n    loadEmbed(iframe) \x7b\n        if (iframe.dataset.src) \x7b\n            iframe.src = iframe.dataset.src;\n            iframe.removeAttribute('data-src');\n            iframe.classList.remove('lazy-embed');\n            \n            // Add loading indicator\n            iframe.style.opacity = '0';\n            iframe.addEventListener('load', () => \x7b\n                iframe.style.transition = 'opacity 0.3s ease';\n                iframe.style.opacity = '1';\n            \x7d);\n        \x7d\n    \x7d\n    \n    loadLazyEmbedsInSection(section) \x7b\n        const lazyEmbeds = section.querySelectorAll('.lazy-embed');\n        lazyEmbeds.forEach(iframe => \x7b\n            this.loadEmbed(iframe);\n        \x7d);\n    \x7d\n    \n    initializeAccessibility() \x7b\n        // Keyboard navigation for collapsible sections\n        document.addEventListener('keydown', (e) => \x7b\n            if (e.key === 'Enter' || e.key === ' ') \x7b\n                if (e.target.classList.contains('section-toggle')) \x7b\n                    e.preventDefault();\n                    this.toggleSection(e.target);\n                \x7d\n            \x7d\n        \x7d);\n        \n        // Focus management\n        const toggleButtons = document.querySelectorAll('.section-toggle');\n        toggleButtons.forEach(button => \x7b\n            button.addEventListener('focus', () => \x7b\n                button.style.outline = '2px solid var(--lufs-teal)';\n                button.style.outlineOffset = '2px';\n            \x7d);\n            \n            button.addEventListener('blur', () => \x7b\n                button.style.outline = 'none';\n            \x7d);\n        \x7d);\n    \x7d\n\x7d\n\n// Smooth scrolling for anchor links\nfunction initializeSmoothScrolling() \x7b\n    document.querySelectorAll('a[href^=\"#\"]').forEach(anchor => \x7b\n        anchor.addEventListener('click', function (e) \x7b\n            e.preventDefault();\n            const target = document.querySelector(this.getAttribute('href'));\n            if (target) \x7b\n                target.scrollIntoView(\x7b\n                    behavior: 'smooth',\n                    block: 'start'\n                \x7d);\n            \x7d\n        \x7d);\n    \x7d);\n\x7d\n\n// Performance monitoring\nfunction initializePerformanceMonitoring() \x7b\n    // Log page load time\n    window.addEventListener('load', () => \x7b\n        const loadTime = performance.now();\n        console.log(`Album du Jour loaded in $\x7bMath.round(loadTime)\x7dms`);\n        \n        // Track largest contentful paint\n        if ('PerformanceObserver' in window) \x7b\n            const observer = new PerformanceObserver((list) => \x7b\n                const entries = list.getEntries();\n                const lastEntry = entries[entries.length - 1];\n                console.log(`LCP: $\x7bMath.round(lastEntry.startTime)\x7dms`);\n            \x7d);\n            observer.observe(\x7b entryTypes: ['largest-contentful-paint'] \x7d);\n        \x7d\n    \x7d);\n\x7d\n\n// Error handling for embeds\nfunction initializeEmbedErrorHandling() \x7b\n    document.addEventListener('error', (e) => \x7b\n        if (e.target.tagName === 'IFRAME') \x7b\n            const iframe = e.target;\n            const container = iframe.closest('.embed-container');\n            if (container) \x7b\n                container.innerHTML = '<p class=\"no-embed\">Embed failed to load</p>';\n            \x7d\n        \x7d\n    \x7d, true);\n\x7d\n\n// Initialize everything when DOM is loaded\ndocument.addEventListener('DOMContentLoaded', () => \x7b\n    console.log('🎵 Album du Jour - Initializing...');\n    \n    try \x7b\n        new AlbumSections();\n        initializeSmoothScrolling();\n        initializePerformanceMonitoring();\n        initializeEmbedErrorHandling();\n        \n        console.log('✅ Album du Jour - Initialized successfully');\n    \x7d catch (error) \x7b\n        console.error('❌ Album du Jour - Initialization error:', error);\n    \x7d\n\x7d);\n\n// Service worker registration for offline support (optional)\nif ('serviceWorker' in navigator) \x7b\n    window.addEventListener('load', () => \x7b\n        // Only register if service worker file exists\n        fetch('/sw.js', \x7b method: 'HEAD' \x7d)\n            .then(() => \x7b\n                navigator.serviceWorker.register('/sw.js')\n                    .then(registration => \x7b\n                        console.log('SW registered: ', registration);\n                    \x7d)\n                    .catch(registrationError => \x7b\n                        console.log('SW registration failed: ', registrationError);\n                    \x7d);\n            \x7d)\n            .catch(() => \x7b\n                // Service worker file doesn't exist, skip registration\n            \x7d);\n    \x7d);\n\x7d\n"

/-- The literal head of the build README, before the interpolated
generation time. -/
def readme_before_time : String :=
  "# Album du Jour - Build Files\n\nThis directory contains the generated static website files for Album du Jour.\n\n## Generated Files\n\n- `index.html` - Main website page with enhanced design\n- `styles.css` - Stylesheet with LUFS branding and responsive design\n- `scripts.js` - Interactive functionality for collapsible sections\n- `assets/` - Images and static assets including custom favicon\n- `favicon.svg` - Custom Album du Jour vinyl record favicon\n\n## Features\n\n### Content Organization\n- **Currently Listening**: Prominently displayed \"album du jour\"\n- **Recently Added**: Last 20 albums added (collapsible)\n- **Recently Finished**: Last 20 albums completed (collapsible)\n\n### Design Features\n- LUFS brand colors and animated background\n- Responsive design for all devices\n- Collapsible sections with localStorage persistence\n- Lazy loading for music embeds\n- Accessibility features and keyboard navigation\n\n### Music Integration\n- Apple Music and Spotify embeds\n- Direct links to music services\n- Optimized embed sizes for different sections\n\n## Deployment\n\nThese files are ready for deployment to any static hosting service:\n\n- **Netlify**: Drag and drop this folder\n- **Vercel**: Connect to Git repository\n- **GitHub Pages**: Push to gh-pages branch\n- **Traditional hosting**: Upload via FTP/SFTP\n\n## Browser Support\n\n- Modern browsers (Chrome, Firefox, Safari, Edge)\n- Mobile browsers (iOS Safari, Chrome Mobile)\n- Progressive enhancement for older browsers\n\n## Performance\n\n- Optimized for fast loading\n- Lazy loading for embeds\n- Minimal JavaScript footprint\n- Responsive images and assets\n\n---\n\n**Generated on:** "

/-- The literal tail of the build README, after the generation time. -/
def readme_after_time : String :=
  "  \n**Source:** Album du Jour Enhanced Build System  \n**Version:** 2.0  \n"

/-- The README text written by `MusicSiteBuilder.generate_build_readme`,
parameterized by the formatted generation time. -/
def readme_content (now_str : String) : String :=
  readme_before_time ++ now_str ++ readme_after_time

/-- The four text files one run writes into the build directory. -/
structure BuildOutput where
  indexHtml : String
  stylesCss : String
  scriptsJs : String
  readmeMd : String
deriving DecidableEq

/-- The text-producing pipeline of `MusicSiteBuilder.run`: fetch, categorize
and render, with the two formatted `datetime.now()` readings passed in as
parameters. -/
def buildSite (rows : List Row) (now_html now_readme : String) : BuildOutput :=
  let music_data := fetch_music_data rows
  let categorized_data := categorize_albums music_data
  { indexHtml := generate_html_content categorized_data now_html
    stylesCss := css_content
    scriptsJs := js_content
    readmeMd := readme_content now_readme }


/-! ## Substring occurrence counting, with an append decomposition that keeps
kernel evaluation shallow on the full page -/

/-- Number of positions where `pat` starts in the list. -/
def countOccurAux (pat : List Char) : List Char → Nat
  | [] => 0
  | c :: rest =>
    if listStartsWith (c :: rest) pat then countOccurAux pat rest + 1
    else countOccurAux pat rest

/-- Number of positions where `pat` starts in `s`. -/
def countOccur (s pat : String) : Nat := countOccurAux pat.data s.data

/-- Occurrences of `pat` in `a ++ b` that start inside `a`. -/
def countStartAux (pat b : List Char) : List Char → Nat
  | [] => 0
  | c :: rest =>
    if listStartsWith ((c :: rest) ++ b) pat then countStartAux pat b rest + 1
    else countStartAux pat b rest

/-- `listStartsWith` against the empty pattern. -/
theorem listStartsWith_nil (s : List Char) : listStartsWith s [] = true := by
  cases s <;> rfl

/-- Unfolding equation of `listStartsWith` on two conses. -/
theorem listStartsWith_cons_cons (a : Char) (as : List Char) (p : Char) (ps : List Char) :
    listStartsWith (a :: as) (p :: ps) = (decide (a = p) && listStartsWith as ps) := rfl

/-- A prefix test inspects at most `pat.length` characters. -/
theorem listStartsWith_window :
    ∀ pat x b : List Char,
      listStartsWith (x ++ b) pat = listStartsWith (x ++ b.take pat.length) pat := by
  intro pat
  induction pat with
  | nil => intro x b; rw [listStartsWith_nil, listStartsWith_nil]
  | cons p ps ih =>
    intro x b
    cases x with
    | nil =>
      simp only [List.nil_append]
      cases b with
      | nil => rfl
      | cons c cs =>
        rw [List.length_cons, List.take_succ_cons,
          listStartsWith_cons_cons, listStartsWith_cons_cons]
        have h := ih [] cs
        simp only [List.nil_append] at h
        rw [h]
    | cons a as =>
      rw [List.cons_append, List.cons_append, List.length_cons,
        listStartsWith_cons_cons, listStartsWith_cons_cons]
      have h1 := ih as b
      have h2 := ih as (b.take (ps.length + 1))
      have hm : min ps.length (ps.length + 1) = ps.length := by omega
      rw [h1, h2, List.take_take, hm]

/-- `countStartAux` only looks `pat.length` characters into the suffix. -/
theorem countStartAux_window (pat b : List Char) :
    ∀ a, countStartAux pat b a = countStartAux pat (b.take pat.length) a := by
  intro a
  induction a with
  | nil => rfl
  | cons c rest ih =>
    simp only [countStartAux]
    rw [listStartsWith_window pat (c :: rest) b, ih]

/-- Unfolding equation of `countOccurAux` on a cons. -/
theorem countOccurAux_cons (pat : List Char) (c : Char) (rest : List Char) :
    countOccurAux pat (c :: rest)
      = if listStartsWith (c :: rest) pat then countOccurAux pat rest + 1
        else countOccurAux pat rest := rfl

/-- Unfolding equation of `countStartAux` on a cons. -/
theorem countStartAux_cons (pat b : List Char) (c : Char) (rest : List Char) :
    countStartAux pat b (c :: rest)
      = if listStartsWith (c :: (rest ++ b)) pat then countStartAux pat b rest + 1
        else countStartAux pat b rest := rfl

/-- Occurrence counting splits at an append: occurrences starting in the
left part (which may run over into the right), plus occurrences in the right
part; the left count needs only a `pat.length` window of the right part. -/
theorem countOccurAux_append (pat a b : List Char) :
    countOccurAux pat (a ++ b)
      = countStartAux pat (b.take pat.length) a + countOccurAux pat b := by
  rw [← countStartAux_window]
  induction a with
  | nil => simp [countStartAux]
  | cons c rest ih =>
    rw [List.cons_append, countOccurAux_cons, countStartAux_cons, ih]
    by_cases hc : listStartsWith (c :: (rest ++ b)) pat = true
    · rw [if_pos hc, if_pos hc]
      omega
    · rw [if_neg hc, if_neg hc]

/-- String append concatenates the underlying character lists. -/
theorem strData_append (s t : String) : (s ++ t).data = s.data ++ t.data := rfl

/-! ## The C8 end-to-end fixture -/

/-- The 3-row fixture of C8: one "Current" row carrying only a Spotify link
(and a placeholder date), one "Open" row with an added timestamp, one "Done"
row with an older completed timestamp. -/
def fixtureRows : List Row :=
  [ { music := "Album One – Artist One", apple_link := "",
      spotify_link := "https://open.spotify.com/album/AAA", status := "Current",
      date_added := "20XX-XX-XXTXX:XX:XXZ", date_finished := "", rating := "" },
    { music := "Album Two – Artist Two",
      apple_link := "https://music.apple.com/us/album/two/222", spotify_link := "",
      status := "Open", date_added := "2024-05-01T00:00:00Z", date_finished := "",
      rating := "" },
    { music := "Album Three – Artist Three", apple_link := "",
      spotify_link := "https://open.spotify.com/album/CCC", status := "Done",
      date_added := "", date_finished := "2024-03-01T00:00:00Z", rating := "" } ]

/-- The fixture rows, fetched and categorized. -/
def fixtureCat : Categorized := categorize_albums (fetch_music_data fixtureRows)

/-- The document generated for the fixture (generation time fixed). -/
def fixtureHtml : String := generate_html_content fixtureCat "June 01, 2025 at 12:00 PM"

set_option maxRecDepth 40000

/-- C8: the generated markup for the 3-row fixture contains exactly one
spotlight card (class "album-card current-card"), exactly one album card in
the Recently Added section, exactly one in the Recently Finished section,
exactly three "album-card" class occurrences in the whole page, and the
three per-section counts displayed in the header ("1 Current", "1 Recently
Added", "1 Recently Finished") sum to the total row count 3 (badge
"3 Total"). -/
theorem end_to_end_fixture :
    countOccur fixtureHtml "album-card current-card" = 1 ∧
    countOccur (generate_collapsible_section "recently-added" "📀 Recently Added"
      fixtureCat.recently_added) "album-card" = 1 ∧
    countOccur (generate_collapsible_section "recently-finished" "✅ Recently Finished"
      fixtureCat.recently_finished) "album-card" = 1 ∧
    countOccur fixtureHtml "album-card" = 3 ∧
    countOccur fixtureHtml "1 Current</span>" = 1 ∧
    countOccur fixtureHtml "1 Recently Added</span>" = 1 ∧
    countOccur fixtureHtml "1 Recently Finished</span>" = 1 ∧
    countOccur fixtureHtml "3 Total</span>" = 1 ∧
    fixtureRows.length = 3 ∧
    fixtureCat.current_listening.length + fixtureCat.recently_added.length
      + fixtureCat.recently_finished.length = 3 := by
  refine ⟨?_, by decide, by decide, ?_, ?_, ?_, ?_, ?_, by decide, by decide⟩
  all_goals
    simp only [fixtureHtml, generate_html_content, html_after_time, countOccur,
      strData_append, List.append_assoc, countOccurAux_append]
    decide

/-- C9: the text-producing pipeline is a deterministic function of the rows
once the generation time is factored out as a parameter: two runs over
identical rows produce identical stylesheet and script files, and documents
and READMEs that differ only in the interpolated generation-time text (their
prefix and suffix depend on the rows alone). -/
theorem build_deterministic_modulo_timestamp :
    ∀ rows : List Row, ∀ nh nh2 nr nr2 : String,
      (buildSite rows nh nr).indexHtml
        = html_before_time ++ nh
          ++ html_after_time (categorize_albums (fetch_music_data rows)) ∧
      (buildSite rows nh2 nr2).indexHtml
        = html_before_time ++ nh2
          ++ html_after_time (categorize_albums (fetch_music_data rows)) ∧
      (buildSite rows nh nr).readmeMd = readme_before_time ++ nr ++ readme_after_time ∧
      (buildSite rows nh2 nr2).readmeMd = readme_before_time ++ nr2 ++ readme_after_time ∧
      (buildSite rows nh nr).stylesCss = (buildSite rows nh2 nr2).stylesCss ∧
      (buildSite rows nh nr).scriptsJs = (buildSite rows nh2 nr2).scriptsJs :=
  fun _ _ _ _ _ => ⟨rfl, rfl, rfl, rfl, rfl, rfl⟩

end AlbumDuJour
